import Mathlib

/-!
# Verification of the timeline viewer's layout and coordinate-mapping engine

This development embeds the core of the timeline viewer (`timeline.js`) in
Lean 4 and proves and refutes properties stated about it.

Modelling conventions:
* JavaScript numbers are modelled as rationals (`ℚ`); machine floats are not
  modelled, so all arithmetic is exact.
* JavaScript `Date` objects are modelled as records of integer calendar
  fields kept normalized by the same proleptic-Gregorian arithmetic the
  ECMAScript specification prescribes for `Date` (`MakeDay`/`MakeDate`,
  local time = UTC, no DST); the conversion between civil dates and day
  numbers is implemented below and proved to be a bijection.
* Code that can throw is embedded with `Except String`; a thrown exception
  corresponds to `Except.error`.
-/

/- ### Civil calendar arithmetic (the model of the `Date` built-ins) -/

/-- Day number (days since 1970-01-01) of a civil date, after ECMAScript
MakeDay: the 0-based month `m` may be any integer (it is carried into the
year) and the day-of-month `d` may be any integer (it extends linearly). -/
def daysFromCivil (y m d : Int) : Int :=
  let y1 := y + m / 12
  let m1 := m % 12
  let y2 := y1 - (if m1 < 2 then 1 else 0)
  let mp := (m1 + 10) % 12
  365 * y2 + y2 / 4 - y2 / 100 + y2 / 400 + (153 * mp + 2) / 5 + (d - 1) - 719468

/-- Day-of-era: position of day number `z` within its 400-year Gregorian era. -/
def doeOf (z : Int) : Int := (z + 719468) % 146097

/-- Era index of day number `z`. -/
def eraOf (z : Int) : Int := (z + 719468) / 146097

/-- Year-of-era (0..399, March-based years) of a day-of-era, by decomposing
the era into centuries, quadrennia and years. -/
def yoeOfDoe (doe : Int) : Int :=
  let c := min (doe / 36524) 3
  let dcent := doe - 36524 * c
  let q := dcent / 1461
  let dquad := dcent - 1461 * q
  let yr := min (dquad / 365) 3
  100 * c + 4 * q + yr

/-- Day within the March-based year (0..365) of a day-of-era. -/
def doyOfDoe (doe : Int) : Int :=
  let c := min (doe / 36524) 3
  let dcent := doe - 36524 * c
  let q := dcent / 1461
  let dquad := dcent - 1461 * q
  let yr := min (dquad / 365) 3
  dquad - 365 * yr

/-- Civil date (year, 0-based month in [0,11], day-of-month in [1,31]) of a
day number (days since 1970-01-01), proleptic Gregorian. -/
def civilFromDays (z : Int) : Int × Int × Int :=
  let doe := doeOf z
  let yoe := yoeOfDoe doe
  let doy := doyOfDoe doe
  let mp := (5 * doy + 2) / 153
  let d := doy - (153 * mp + 2) / 5 + 1
  let m := if mp < 10 then mp + 2 else mp - 10
  let y := yoe + eraOf z * 400 + (if m < 2 then 1 else 0)
  (y, m, d)

/-- Number of days in 0-based month `m` of year `y` (proleptic Gregorian). -/
def daysInMonth (y m : Int) : Int :=
  if m = 1 then (if y % 4 = 0 ∧ (¬ y % 100 = 0 ∨ y % 400 = 0) then 29 else 28)
  else if m = 3 ∨ m = 5 ∨ m = 8 ∨ m = 10 then 30 else 31

/-- Day number of the first day of the month with absolute month index `j`
(month `j % 12` of year `j / 12`). -/
def monthStart (j : Int) : Int := daysFromCivil 0 j 1

theorem daysFromCivil_eq_monthStart (y m d : Int) :
    daysFromCivil y m d = monthStart (12 * y + m) + (d - 1) := by
  simp only [daysFromCivil, monthStart]
  have e1 : (12 * y + m) / 12 = y + m / 12 := by omega
  have e2 : (12 * y + m) % 12 = m % 12 := by omega
  rw [e1, e2]
  split_ifs <;> omega

theorem monthStart_step (j : Int) :
    monthStart (j + 1) = monthStart j + daysInMonth (j / 12) (j % 12) := by
  have h12 : j % 12 = 0 ∨ j % 12 = 1 ∨ j % 12 = 2 ∨ j % 12 = 3 ∨ j % 12 = 4 ∨
      j % 12 = 5 ∨ j % 12 = 6 ∨ j % 12 = 7 ∨ j % 12 = 8 ∨ j % 12 = 9 ∨
      j % 12 = 10 ∨ j % 12 = 11 := by omega
  simp only [monthStart, daysFromCivil, daysInMonth]
  split_ifs <;> rcases h12 with h|h|h|h|h|h|h|h|h|h|h|h <;> omega

theorem daysInMonth_bounds (y m : Int) :
    28 ≤ daysInMonth y m ∧ daysInMonth y m ≤ 31 := by
  simp only [daysInMonth]
  split_ifs <;> omega

theorem monthStart_gap_nat (j : Int) (n : Nat) :
    monthStart j + 28 * n ≤ monthStart (j + n) ∧
    monthStart (j + n) ≤ monthStart j + 31 * n := by
  induction n with
  | zero => simp
  | succ k ih =>
    have hs := monthStart_step (j + k)
    have hb := daysInMonth_bounds ((j + (k : Int)) / 12) ((j + (k : Int)) % 12)
    have hcast : ((k + 1 : Nat) : Int) = (k : Int) + 1 := by omega
    rw [hcast]
    have he : j + ((k : Int) + 1) = (j + (k : Int)) + 1 := by ring
    rw [he]
    omega

theorem monthStart_gap (j k : Int) (h : j ≤ k) :
    monthStart j + 28 * (k - j) ≤ monthStart k ∧
    monthStart k ≤ monthStart j + 31 * (k - j) := by
  obtain ⟨n, rfl⟩ : ∃ n : Nat, k = j + n := ⟨(k - j).toNat, by omega⟩
  have := monthStart_gap_nat j n
  omega

/-- Stage lemma: the year-of-era / day-of-year decomposition is exact. -/
theorem yoe_doy_spec (doe : Int) (h0 : 0 ≤ doe) (h1 : doe ≤ 146096) :
    0 ≤ yoeOfDoe doe ∧ yoeOfDoe doe ≤ 399 ∧
    0 ≤ doyOfDoe doe ∧ doyOfDoe doe ≤ 365 ∧
    365 * yoeOfDoe doe + yoeOfDoe doe / 4 - yoeOfDoe doe / 100 + doyOfDoe doe = doe := by
  simp only [yoeOfDoe, doyOfDoe]
  have hc : 0 ≤ min (doe / 36524) 3 ∧ min (doe / 36524) 3 ≤ 3 := by omega
  set c := min (doe / 36524) 3 with hcdef
  have hdc : 0 ≤ doe - 36524 * c ∧ doe - 36524 * c ≤ 36524 := by omega
  set dcent := doe - 36524 * c with hdcdef
  have hq : 0 ≤ dcent / 1461 ∧ dcent / 1461 ≤ 24 := by omega
  set q := dcent / 1461 with hqdef
  have hdq : 0 ≤ dcent - 1461 * q ∧ dcent - 1461 * q ≤ 1460 := by omega
  set dquad := dcent - 1461 * q with hdqdef
  have hyr : 0 ≤ min (dquad / 365) 3 ∧ min (dquad / 365) 3 ≤ 3 ∧
      365 * min (dquad / 365) 3 ≤ dquad ∧ dquad - 365 * min (dquad / 365) 3 ≤ 365 := by
    omega
  set yr := min (dquad / 365) 3 with hyrdef
  have h4 : (100 * c + 4 * q + yr) / 4 = 25 * c + q := by omega
  have h100 : (100 * c + 4 * q + yr) / 100 = c := by omega
  omega

/-- A March-based year has 366 days exactly when the civil year that supplies
its February is a leap year; expressed through the year-of-era. -/
theorem doy_eq_365 (doe : Int) (h0 : 0 ≤ doe) (h1 : doe ≤ 146096)
    (h : doyOfDoe doe = 365) :
    yoeOfDoe doe % 4 = 3 ∧ (yoeOfDoe doe % 100 = 99 → yoeOfDoe doe = 399) := by
  simp only [yoeOfDoe, doyOfDoe] at *
  have hc : 0 ≤ min (doe / 36524) 3 ∧ min (doe / 36524) 3 ≤ 3 ∧
      (min (doe / 36524) 3 < 3 → doe - 36524 * min (doe / 36524) 3 ≤ 36523) := by omega
  set c := min (doe / 36524) 3 with hcdef
  have hdc : 0 ≤ doe - 36524 * c ∧ doe - 36524 * c ≤ 36524 := by omega
  set dcent := doe - 36524 * c with hdcdef
  have hq : 0 ≤ dcent / 1461 ∧ dcent / 1461 ≤ 24 ∧ 1461 * (dcent / 1461) ≤ dcent ∧
      dcent - 1461 * (dcent / 1461) ≤ 1460 := by omega
  set q := dcent / 1461 with hqdef
  set dquad := dcent - 1461 * q with hdqdef
  have hyr : 0 ≤ min (dquad / 365) 3 ∧ min (dquad / 365) 3 ≤ 3 ∧
      (min (dquad / 365) 3 < 3 → dquad - 365 * min (dquad / 365) 3 ≤ 364) := by omega
  set yr := min (dquad / 365) 3 with hyrdef
  omega

/-- Reassembling the civil date produced by `civilFromDays` gives back the day
number: `daysFromCivil` is a left inverse of `civilFromDays`. -/
theorem daysFromCivil_civilFromDays (z : Int) :
    daysFromCivil (civilFromDays z).1 (civilFromDays z).2.1 (civilFromDays z).2.2 = z := by
  have hdoe : 0 ≤ doeOf z ∧ doeOf z ≤ 146096 ∧ doeOf z = z + 719468 - 146097 * eraOf z := by
    simp only [doeOf, eraOf]; omega
  obtain ⟨hd0, hd1, hd2⟩ := hdoe
  obtain ⟨hy0, hy1, hdy0, hdy1, hsum⟩ := yoe_doy_spec (doeOf z) hd0 hd1
  simp only [civilFromDays, daysFromCivil]
  set doe := doeOf z
  set era := eraOf z
  set yoe := yoeOfDoe doe
  set doy := doyOfDoe doe
  have hmp : 0 ≤ (5 * doy + 2) / 153 ∧ (5 * doy + 2) / 153 ≤ 11 := by omega
  set mp := (5 * doy + 2) / 153 with hmpdef
  have hmd : (153 * mp + 2) / 5 ≤ doy ∧ doy - (153 * mp + 2) / 5 ≤ 30 := by omega
  set d := doy - (153 * mp + 2) / 5 + 1 with hddef
  by_cases hlt : mp < 10
  · simp only [if_pos hlt]
    have hm2 : ¬(mp + 2 < 2) := by omega
    simp only [if_neg hm2]
    have e1 : (mp + 2) / 12 = 0 := by omega
    have e2 : (mp + 2) % 12 = mp + 2 := by omega
    rw [e1, e2]
    have e3 : ¬(mp + 2 < 2) := by omega
    simp only [if_neg e3]
    have e4 : (mp + 2 + 10) % 12 = mp := by omega
    rw [e4]
    have g4 : (yoe + era * 400 + 0 + 0 - 0) / 4 = yoe / 4 + era * 100 := by omega
    have g100 : (yoe + era * 400 + 0 + 0 - 0) / 100 = yoe / 100 + era * 4 := by omega
    have g400 : (yoe + era * 400 + 0 + 0 - 0) / 400 = era := by omega
    omega
  · simp only [if_neg hlt]
    have hm2 : mp - 10 < 2 := by omega
    simp only [if_pos hm2]
    have e1 : (mp - 10) / 12 = 0 := by omega
    have e2 : (mp - 10) % 12 = mp - 10 := by omega
    rw [e1, e2]
    have e3 : mp - 10 < 2 := by omega
    simp only [if_pos e3]
    have e4 : (mp - 10 + 10) % 12 = mp := by omega
    rw [e4]
    have g4 : (yoe + era * 400 + 1 + 0 - 1) / 4 = yoe / 4 + era * 100 := by omega
    have g100 : (yoe + era * 400 + 1 + 0 - 1) / 100 = yoe / 100 + era * 4 := by omega
    have g400 : (yoe + era * 400 + 1 + 0 - 1) / 400 = era := by omega
    omega

/-- Field ranges produced by `civilFromDays`. -/
theorem civilFromDays_ranges (z : Int) :
    0 ≤ (civilFromDays z).2.1 ∧ (civilFromDays z).2.1 ≤ 11 ∧
    1 ≤ (civilFromDays z).2.2 ∧ (civilFromDays z).2.2 ≤ 31 := by
  have hdoe : 0 ≤ doeOf z ∧ doeOf z ≤ 146096 := by simp only [doeOf]; omega
  obtain ⟨hy0, hy1, hdy0, hdy1, hsum⟩ := yoe_doy_spec (doeOf z) hdoe.1 hdoe.2
  simp only [civilFromDays]
  set doe := doeOf z
  set doy := doyOfDoe doe
  split_ifs <;> omega

theorem day_le_dim_aux (doy yoe era : Int)
    (hy0 : 0 ≤ yoe) (hy1 : yoe ≤ 399) (hdy0 : 0 ≤ doy) (hdy1 : doy ≤ 365)
    (h365 : doy = 365 → yoe % 4 = 3 ∧ (yoe % 100 = 99 → yoe = 399)) :
    doy - (153 * ((5 * doy + 2) / 153) + 2) / 5 + 1 ≤
      daysInMonth
        (yoe + era * 400 +
          (if (if (5 * doy + 2) / 153 < 10 then (5 * doy + 2) / 153 + 2
               else (5 * doy + 2) / 153 - 10) < 2 then 1 else 0))
        (if (5 * doy + 2) / 153 < 10 then (5 * doy + 2) / 153 + 2
         else (5 * doy + 2) / 153 - 10) := by
  have hm4 : (yoe + era * 400 + 1) % 4 = (yoe + 1) % 4 := by omega
  have hm100 : (yoe + era * 400 + 1) % 100 = (yoe + 1) % 100 := by omega
  have hyoe399 : yoe = 399 → (yoe + era * 400 + 1) % 400 = 0 := by omega
  simp only [daysInMonth]
  by_cases hdoy : doy = 365
  · obtain ⟨hA, hB⟩ := h365 hdoy
    split_ifs <;> omega
  · have hdoy' : doy ≤ 364 := by omega
    split_ifs <;> omega

/-- The day-of-month produced by `civilFromDays` never exceeds the length of
the produced month. -/
theorem civilFromDays_day_le (z : Int) :
    (civilFromDays z).2.2 ≤ daysInMonth (civilFromDays z).1 (civilFromDays z).2.1 := by
  have hdoe : 0 ≤ doeOf z ∧ doeOf z ≤ 146096 := by simp only [doeOf]; omega
  obtain ⟨hy0, hy1, hdy0, hdy1, hsum⟩ := yoe_doy_spec (doeOf z) hdoe.1 hdoe.2
  have h365 := doy_eq_365 (doeOf z) hdoe.1 hdoe.2
  simpa only [civilFromDays] using
    day_le_dim_aux (doyOfDoe (doeOf z)) (yoeOfDoe (doeOf z)) (eraOf z)
      hy0 hy1 hdy0 hdy1 h365

/-- `civilFromDays` is a left inverse of `daysFromCivil` on valid civil dates. -/
theorem civilFromDays_daysFromCivil (y m d : Int) (h0 : 0 ≤ m) (h1 : m ≤ 11)
    (h2 : 1 ≤ d) (h3 : d ≤ daysInMonth y m) :
    civilFromDays (daysFromCivil y m d) = (y, m, d) := by
  have hz := daysFromCivil_civilFromDays (daysFromCivil y m d)
  have hr := civilFromDays_ranges (daysFromCivil y m d)
  have hs := civilFromDays_day_le (daysFromCivil y m d)
  rcases hT : civilFromDays (daysFromCivil y m d) with ⟨y', m', d'⟩
  rw [hT] at hz hr hs
  dsimp only at hz hr hs
  obtain ⟨hr0, hr1, hr2, hr3⟩ := hr
  rw [daysFromCivil_eq_monthStart y m d, daysFromCivil_eq_monthStart y' m' d'] at hz
  have hstep := monthStart_step (12 * y + m)
  have e1 : (12 * y + m) / 12 = y := by omega
  have e2 : (12 * y + m) % 12 = m := by omega
  rw [e1, e2] at hstep
  have hstep' := monthStart_step (12 * y' + m')
  have e1' : (12 * y' + m') / 12 = y' := by omega
  have e2' : (12 * y' + m') % 12 = m' := by omega
  rw [e1', e2'] at hstep'
  have hj : 12 * y + m = 12 * y' + m' := by
    rcases lt_trichotomy (12 * y + m) (12 * y' + m') with hlt | heq | hgt
    · obtain ⟨hg1, hg2⟩ := monthStart_gap (12 * y + m + 1) (12 * y' + m') (by omega)
      have ht : 0 ≤ 28 * ((12 * y' + m') - (12 * y + m + 1)) := by omega
      have hFle : monthStart (12 * y + m + 1) ≤ monthStart (12 * y' + m') := by
        linarith
      omega
    · exact heq
    · obtain ⟨hg1, hg2⟩ := monthStart_gap (12 * y' + m' + 1) (12 * y + m) (by omega)
      have ht : 0 ≤ 28 * ((12 * y + m) - (12 * y' + m' + 1)) := by omega
      have hFle : monthStart (12 * y' + m' + 1) ≤ monthStart (12 * y + m) := by
        linarith
      omega
  have hy : y' = y := by omega
  have hm : m' = m := by omega
  subst hy
  subst hm
  have hd : d' = d := by omega
  subst hd
  rfl

/-- The year produced by `civilFromDays ∘ daysFromCivil` equals the input year
whenever the month is in range and the day is loosely in range (1..31): day
overflow can spill into the next month but never into the next year. -/
theorem landing_year (y m d : Int) (h0 : 0 ≤ m) (h1 : m ≤ 11) (h2 : 1 ≤ d) (h3 : d ≤ 31) :
    (civilFromDays (daysFromCivil y m d)).1 = y := by
  have hz := daysFromCivil_civilFromDays (daysFromCivil y m d)
  have hr := civilFromDays_ranges (daysFromCivil y m d)
  have hs := civilFromDays_day_le (daysFromCivil y m d)
  rcases hT : civilFromDays (daysFromCivil y m d) with ⟨y', m', d'⟩
  rw [hT] at hz hr hs
  dsimp only at hz hr hs ⊢
  obtain ⟨hr0, hr1, hr2, hr3⟩ := hr
  rw [daysFromCivil_eq_monthStart y m d, daysFromCivil_eq_monthStart y' m' d'] at hz
  -- z sits inside civil year y
  have hstepm := monthStart_step (12 * y + m)
  have e1 : (12 * y + m) / 12 = y := by omega
  have e2 : (12 * y + m) % 12 = m := by omega
  rw [e1, e2] at hstepm
  have hstep' := monthStart_step (12 * y' + m')
  have e1' : (12 * y' + m') / 12 = y' := by omega
  have e2' : (12 * y' + m') % 12 = m' := by omega
  rw [e1', e2'] at hstep'
  have hdimm := daysInMonth_bounds y m
  have hdim' := daysInMonth_bounds y' m'
  -- j' cannot be below 12*y
  have hlow : 12 * y ≤ 12 * y' + m' := by
    by_contra hcon
    obtain ⟨hg1, hg2⟩ := monthStart_gap (12 * y' + m' + 1) (12 * y) (by omega)
    have ht : 0 ≤ 28 * (12 * y - (12 * y' + m' + 1)) := by omega
    have hFle : monthStart (12 * y' + m' + 1) ≤ monthStart (12 * y) := by linarith
    obtain ⟨hg3, hg4⟩ := monthStart_gap (12 * y) (12 * y + m) (by omega)
    have ht2 : 0 ≤ 28 * ((12 * y + m) - (12 * y)) := by omega
    have hFle2 : monthStart (12 * y) ≤ monthStart (12 * y + m) := by linarith
    omega
  -- j' cannot reach 12*(y+1)
  have hd31 : daysInMonth y m = 31 ∨ m ≤ 10 := by
    by_cases hm : m = 11
    · left; simp [daysInMonth, hm]
    · right; omega
  have hhigh : 12 * y' + m' < 12 * y + 12 := by
    by_contra hcon
    obtain ⟨hg1, hg2⟩ := monthStart_gap (12 * y + 12) (12 * y' + m') (by omega)
    have ht : 0 ≤ 28 * ((12 * y' + m') - (12 * y + 12)) := by omega
    have hFle : monthStart (12 * y + 12) ≤ monthStart (12 * y' + m') := by linarith
    obtain ⟨hg3, hg4⟩ := monthStart_gap (12 * y + m + 1) (12 * y + 12) (by omega)
    omega
  omega

/- ### The model of JavaScript `Date` objects -/

/-- A JavaScript `Date`, modelled by its calendar fields (month is 0-based).
A value held by the running program is always normalized (JavaScript stores
only the timestamp); `Normalized` states that. -/
structure JSDate where
  year : Int
  month : Int
  day : Int
  hour : Int
  minute : Int
  second : Int
  ms : Int
deriving DecidableEq, Repr

def msPerDay : Int := 86400000

def timeOfDayMs (d : JSDate) : Int :=
  d.hour * 3600000 + d.minute * 60000 + d.second * 1000 + d.ms

/-- The internal time value of a `Date` (milliseconds since the epoch);
this is what JavaScript date subtraction and comparison operate on. -/
def toTimestamp (d : JSDate) : Int :=
  daysFromCivil d.year d.month d.day * msPerDay + timeOfDayMs d

/-- The `Date` whose internal time value is `t`. -/
def ofTimestamp (t : Int) : JSDate :=
  ⟨(civilFromDays (t / msPerDay)).1, (civilFromDays (t / msPerDay)).2.1,
   (civilFromDays (t / msPerDay)).2.2,
   t % msPerDay / 3600000, t % msPerDay / 60000 % 60,
   t % msPerDay / 1000 % 60, t % msPerDay % 1000⟩

def Normalized (d : JSDate) : Prop :=
  0 ≤ d.month ∧ d.month ≤ 11 ∧ 1 ≤ d.day ∧ d.day ≤ daysInMonth d.year d.month ∧
  0 ≤ d.hour ∧ d.hour ≤ 23 ∧ 0 ≤ d.minute ∧ d.minute ≤ 59 ∧
  0 ≤ d.second ∧ d.second ≤ 59 ∧ 0 ≤ d.ms ∧ d.ms ≤ 999

instance (d : JSDate) : Decidable (Normalized d) := by
  unfold Normalized; infer_instance

theorem toTimestamp_ofTimestamp (t : Int) : toTimestamp (ofTimestamp t) = t := by
  simp only [toTimestamp, ofTimestamp, timeOfDayMs]
  rw [daysFromCivil_civilFromDays]
  simp only [msPerDay]
  omega

theorem ofTimestamp_normalized (t : Int) : Normalized (ofTimestamp t) := by
  have hr := civilFromDays_ranges (t / msPerDay)
  have hs := civilFromDays_day_le (t / msPerDay)
  simp only [Normalized, ofTimestamp, msPerDay] at *
  refine ⟨hr.1, hr.2.1, hr.2.2.1, hs, ?_, ?_, ?_, ?_, ?_, ?_, ?_, ?_⟩ <;> omega

theorem ofTimestamp_fields (z tod : Int) (h0 : 0 ≤ tod) (h1 : tod < 86400000) :
    ofTimestamp (z * msPerDay + tod) =
      ⟨(civilFromDays z).1, (civilFromDays z).2.1, (civilFromDays z).2.2,
       tod / 3600000, tod / 60000 % 60, tod / 1000 % 60, tod % 1000⟩ := by
  simp only [ofTimestamp, msPerDay]
  have hz : (z * 86400000 + tod) / 86400000 = z := by omega
  have ht : (z * 86400000 + tod) % 86400000 = tod := by omega
  rw [hz, ht]

/- JavaScript `Date` field setters (ECMAScript `MakeDay`/`MakeDate`). -/

/-- `Date.prototype.setFullYear(y)` (single-argument form). -/
def setFullYear (dt : JSDate) (y : Int) : JSDate :=
  ⟨(civilFromDays (daysFromCivil y dt.month dt.day)).1,
   (civilFromDays (daysFromCivil y dt.month dt.day)).2.1,
   (civilFromDays (daysFromCivil y dt.month dt.day)).2.2,
   dt.hour, dt.minute, dt.second, dt.ms⟩

/-- `Date.prototype.setMonth(m)` (single-argument form); `m` may be any
integer and is carried into the year. -/
def setMonth (dt : JSDate) (m : Int) : JSDate :=
  ⟨(civilFromDays (daysFromCivil dt.year m dt.day)).1,
   (civilFromDays (daysFromCivil dt.year m dt.day)).2.1,
   (civilFromDays (daysFromCivil dt.year m dt.day)).2.2,
   dt.hour, dt.minute, dt.second, dt.ms⟩

/-- `Date.prototype.setDate(d)`; `d` may be any integer. -/
def setDate (dt : JSDate) (d : Int) : JSDate :=
  ⟨(civilFromDays (daysFromCivil dt.year dt.month d)).1,
   (civilFromDays (daysFromCivil dt.year dt.month d)).2.1,
   (civilFromDays (daysFromCivil dt.year dt.month d)).2.2,
   dt.hour, dt.minute, dt.second, dt.ms⟩

/-- `Date.prototype.setHours(h)` (single-argument form). -/
def setHours (dt : JSDate) (h : Int) : JSDate :=
  ofTimestamp (daysFromCivil dt.year dt.month dt.day * msPerDay +
    h * 3600000 + dt.minute * 60000 + dt.second * 1000 + dt.ms)

/-- `Date.prototype.setMinutes(m)` (single-argument form). -/
def setMinutes (dt : JSDate) (m : Int) : JSDate :=
  ofTimestamp (daysFromCivil dt.year dt.month dt.day * msPerDay +
    dt.hour * 3600000 + m * 60000 + dt.second * 1000 + dt.ms)

/-- `Date.prototype.setSeconds(s)` (single-argument form). -/
def setSeconds (dt : JSDate) (s : Int) : JSDate :=
  ofTimestamp (daysFromCivil dt.year dt.month dt.day * msPerDay +
    dt.hour * 3600000 + dt.minute * 60000 + s * 1000 + dt.ms)

/-- `Date.prototype.setMilliseconds(v)`. -/
def setMilliseconds (dt : JSDate) (v : Int) : JSDate :=
  ofTimestamp (daysFromCivil dt.year dt.month dt.day * msPerDay +
    dt.hour * 3600000 + dt.minute * 60000 + dt.second * 1000 + v)

/-- `new Date(y, m, d)`: the two-digit-year rule maps 0..99 to 1900..1999;
time-of-day is zero. -/
def jsNewDate (y m d : Int) : JSDate :=
  let yy := if 0 ≤ y ∧ y ≤ 99 then 1900 + y else y
  ⟨(civilFromDays (daysFromCivil yy m d)).1,
   (civilFromDays (daysFromCivil yy m d)).2.1,
   (civilFromDays (daysFromCivil yy m d)).2.2,
   0, 0, 0, 0⟩

/- Setter characterizations. -/

theorem toTimestamp_setFullYear (dt : JSDate) (y : Int) :
    toTimestamp (setFullYear dt y) =
      daysFromCivil y dt.month dt.day * msPerDay + timeOfDayMs dt := by
  simp only [toTimestamp, setFullYear, timeOfDayMs]
  rw [daysFromCivil_civilFromDays]

theorem toTimestamp_setMonth (dt : JSDate) (m : Int) :
    toTimestamp (setMonth dt m) =
      daysFromCivil dt.year m dt.day * msPerDay + timeOfDayMs dt := by
  simp only [toTimestamp, setMonth, timeOfDayMs]
  rw [daysFromCivil_civilFromDays]

theorem toTimestamp_setDate (dt : JSDate) (d : Int) :
    toTimestamp (setDate dt d) =
      daysFromCivil dt.year dt.month d * msPerDay + timeOfDayMs dt := by
  simp only [toTimestamp, setDate, timeOfDayMs]
  rw [daysFromCivil_civilFromDays]

theorem setFullYear_valid (dt : JSDate) (y : Int)
    (h0 : 0 ≤ dt.month) (h1 : dt.month ≤ 11) (h2 : 1 ≤ dt.day)
    (h3 : dt.day ≤ daysInMonth y dt.month) :
    setFullYear dt y = ⟨y, dt.month, dt.day, dt.hour, dt.minute, dt.second, dt.ms⟩ := by
  simp only [setFullYear]
  rw [civilFromDays_daysFromCivil y dt.month dt.day h0 h1 h2 h3]

theorem setMonth_valid (dt : JSDate) (m : Int)
    (h0 : 0 ≤ m) (h1 : m ≤ 11) (h2 : 1 ≤ dt.day) (h3 : dt.day ≤ daysInMonth dt.year m) :
    setMonth dt m = ⟨dt.year, m, dt.day, dt.hour, dt.minute, dt.second, dt.ms⟩ := by
  simp only [setMonth]
  rw [civilFromDays_daysFromCivil dt.year m dt.day h0 h1 h2 h3]

theorem setDate_valid (dt : JSDate) (d : Int)
    (h0 : 0 ≤ dt.month) (h1 : dt.month ≤ 11) (h2 : 1 ≤ d)
    (h3 : d ≤ daysInMonth dt.year dt.month) :
    setDate dt d = ⟨dt.year, dt.month, d, dt.hour, dt.minute, dt.second, dt.ms⟩ := by
  simp only [setDate]
  rw [civilFromDays_daysFromCivil dt.year dt.month d h0 h1 h2 h3]

theorem setFullYear_year (dt : JSDate) (y : Int)
    (h0 : 0 ≤ dt.month) (h1 : dt.month ≤ 11) (h2 : 1 ≤ dt.day) (h3 : dt.day ≤ 31) :
    (setFullYear dt y).year = y := by
  simp only [setFullYear]
  exact landing_year y dt.month dt.day h0 h1 h2 h3

/- ### CalendarArithmetic: the source's date helper functions -/

/-- The ten recognized scale types (granularities). -/
def validScaleTypes : List String :=
  ["millennium", "century", "decade", "year", "month", "date",
   "hour", "minute", "second", "millisecond"]

/-- `getFocusDateAsValue` from timeline.js: extracts the component of a date
selected by the scale type, throwing on an unrecognized scale type. -/
def getFocusDateAsValue (date : JSDate) (scaleType : String) : Except String Int :=
  if ¬ validScaleTypes.contains scaleType then
    .error ("Invalid scaleType, scaleType cannot be '" ++ scaleType ++ "'")
  else if scaleType = "millennium" then .ok date.year
  else if scaleType = "century" then .ok date.year
  else if scaleType = "decade" then .ok date.year
  else if scaleType = "year" then .ok date.year
  else if scaleType = "month" then .ok date.month
  else if scaleType = "date" then .ok date.day
  else if scaleType = "hour" then .ok date.hour
  else if scaleType = "minute" then .ok date.minute
  else if scaleType = "second" then .ok date.second
  else .ok date.ms

/-- `incrementDateByScaleType` from timeline.js. The `switch` has no `default`
case, so an unrecognized scale type returns the copied date unchanged. -/
def incrementDateByScaleType (oldDate : JSDate) (scaleType : String) (increment : Int) :
    JSDate :=
  if scaleType = "millennium" then
    setMonth (setFullYear oldDate ((oldDate.year + increment * 1000) / 1000 * 1000)) 0
  else if scaleType = "century" then
    setMonth (setFullYear oldDate ((oldDate.year + increment * 100) / 100 * 100)) 0
  else if scaleType = "decade" then
    setMonth (setFullYear oldDate ((oldDate.year + increment * 10) / 10 * 10)) 0
  else if scaleType = "year" then
    setMonth (setFullYear oldDate (oldDate.year + increment)) 0
  else if scaleType = "month" then
    let d1 := setDate oldDate 1
    let d2 := setHours d1 0
    let d3 := setMinutes d2 0
    let d4 := setSeconds d3 0
    let d5 := setMilliseconds d4 0
    setMonth d5 (d5.month + increment)
  else if scaleType = "date" then
    let d1 := setHours oldDate 0
    let d2 := setMinutes d1 0
    let d3 := setSeconds d2 0
    let d4 := setMilliseconds d3 0
    setDate d4 (d4.day + increment)
  else if scaleType = "hour" then
    let d1 := setMinutes oldDate 0
    let d2 := setSeconds d1 0
    let d3 := setMilliseconds d2 0
    setHours d3 (d3.hour + increment)
  else if scaleType = "minute" then
    let d1 := setSeconds oldDate 0
    let d2 := setMilliseconds d1 0
    setMinutes d2 (d2.minute + increment)
  else if scaleType = "second" then
    let d1 := setMilliseconds oldDate 0
    setSeconds d1 (d1.second + increment)
  else if scaleType = "millisecond" then
    setMilliseconds oldDate (oldDate.ms + increment)
  else oldDate

/-- `getDaysInMonth` from timeline.js: `new Date(year, month + 1, 0).getDate()`
(note: inherits the constructor's two-digit-year rule for years 0..99). -/
def getDaysInMonth (date : JSDate) : Int :=
  (jsNewDate date.year (date.month + 1) 0).day

/-- `getCalendarDayDifference` from timeline.js: normalizes both dates to
midnight via the constructor, then rounds the difference in days. -/
def getCalendarDayDifference (date1 date2 : JSDate) : Int :=
  let d1 := jsNewDate date1.year date1.month date1.day
  let d2 := jsNewDate date2.year date2.month date2.day
  round (((toTimestamp d2 - toTimestamp d1 : Int) : ℚ) / 86400000)

/- Characterizations of `incrementDateByScaleType` on normalized dates. -/

theorem normalized_fields (d : JSDate) (h : Normalized d) :
    0 ≤ d.month ∧ d.month ≤ 11 ∧ 1 ≤ d.day ∧ d.day ≤ daysInMonth d.year d.month ∧
    0 ≤ d.hour ∧ d.hour ≤ 23 ∧ 0 ≤ d.minute ∧ d.minute ≤ 59 ∧
    0 ≤ d.second ∧ d.second ≤ 59 ∧ 0 ≤ d.ms ∧ d.ms ≤ 999 := h

/-- Zeroing the hour of a normalized date only changes the hour field. -/
theorem setHours_zero (d : JSDate) (h : Normalized d) :
    setHours d 0 = ⟨d.year, d.month, d.day, 0, d.minute, d.second, d.ms⟩ := by
  obtain ⟨h1, h2, h3, h4, h5, h6, h7, h8, h9, h10, h11, h12⟩ := h
  have hb := daysInMonth_bounds d.year d.month
  simp only [setHours]
  rw [show daysFromCivil d.year d.month d.day * msPerDay + 0 * 3600000 +
      d.minute * 60000 + d.second * 1000 + d.ms =
      daysFromCivil d.year d.month d.day * msPerDay +
      (d.minute * 60000 + d.second * 1000 + d.ms) by ring]
  rw [ofTimestamp_fields _ _ (by omega) (by omega)]
  rw [civilFromDays_daysFromCivil d.year d.month d.day h1 h2 h3 h4]
  have e1 : (d.minute * 60000 + d.second * 1000 + d.ms) / 3600000 = 0 := by omega
  have e2 : (d.minute * 60000 + d.second * 1000 + d.ms) / 60000 % 60 = d.minute := by omega
  have e3 : (d.minute * 60000 + d.second * 1000 + d.ms) / 1000 % 60 = d.second := by omega
  have e4 : (d.minute * 60000 + d.second * 1000 + d.ms) % 1000 = d.ms := by omega
  rw [e1, e2, e3, e4]

/-- Zeroing the minutes of a normalized date only changes the minute field. -/
theorem setMinutes_zero (d : JSDate) (h : Normalized d) :
    setMinutes d 0 = ⟨d.year, d.month, d.day, d.hour, 0, d.second, d.ms⟩ := by
  obtain ⟨h1, h2, h3, h4, h5, h6, h7, h8, h9, h10, h11, h12⟩ := h
  simp only [setMinutes]
  rw [show daysFromCivil d.year d.month d.day * msPerDay + d.hour * 3600000 +
      0 * 60000 + d.second * 1000 + d.ms =
      daysFromCivil d.year d.month d.day * msPerDay +
      (d.hour * 3600000 + d.second * 1000 + d.ms) by ring]
  rw [ofTimestamp_fields _ _ (by omega) (by omega)]
  rw [civilFromDays_daysFromCivil d.year d.month d.day h1 h2 h3 h4]
  have e1 : (d.hour * 3600000 + d.second * 1000 + d.ms) / 3600000 = d.hour := by omega
  have e2 : (d.hour * 3600000 + d.second * 1000 + d.ms) / 60000 % 60 = 0 := by omega
  have e3 : (d.hour * 3600000 + d.second * 1000 + d.ms) / 1000 % 60 = d.second := by omega
  have e4 : (d.hour * 3600000 + d.second * 1000 + d.ms) % 1000 = d.ms := by omega
  rw [e1, e2, e3, e4]

/-- Zeroing the seconds of a normalized date only changes the second field. -/
theorem setSeconds_zero (d : JSDate) (h : Normalized d) :
    setSeconds d 0 = ⟨d.year, d.month, d.day, d.hour, d.minute, 0, d.ms⟩ := by
  obtain ⟨h1, h2, h3, h4, h5, h6, h7, h8, h9, h10, h11, h12⟩ := h
  simp only [setSeconds]
  rw [show daysFromCivil d.year d.month d.day * msPerDay + d.hour * 3600000 +
      d.minute * 60000 + 0 * 1000 + d.ms =
      daysFromCivil d.year d.month d.day * msPerDay +
      (d.hour * 3600000 + d.minute * 60000 + d.ms) by ring]
  rw [ofTimestamp_fields _ _ (by omega) (by omega)]
  rw [civilFromDays_daysFromCivil d.year d.month d.day h1 h2 h3 h4]
  have e1 : (d.hour * 3600000 + d.minute * 60000 + d.ms) / 3600000 = d.hour := by omega
  have e2 : (d.hour * 3600000 + d.minute * 60000 + d.ms) / 60000 % 60 = d.minute := by omega
  have e3 : (d.hour * 3600000 + d.minute * 60000 + d.ms) / 1000 % 60 = 0 := by omega
  have e4 : (d.hour * 3600000 + d.minute * 60000 + d.ms) % 1000 = d.ms := by omega
  rw [e1, e2, e3, e4]

/-- Zeroing the milliseconds of a normalized date only changes that field. -/
theorem setMilliseconds_zero (d : JSDate) (h : Normalized d) :
    setMilliseconds d 0 = ⟨d.year, d.month, d.day, d.hour, d.minute, d.second, 0⟩ := by
  obtain ⟨h1, h2, h3, h4, h5, h6, h7, h8, h9, h10, h11, h12⟩ := h
  simp only [setMilliseconds]
  rw [show daysFromCivil d.year d.month d.day * msPerDay + d.hour * 3600000 +
      d.minute * 60000 + d.second * 1000 + 0 =
      daysFromCivil d.year d.month d.day * msPerDay +
      (d.hour * 3600000 + d.minute * 60000 + d.second * 1000) by ring]
  rw [ofTimestamp_fields _ _ (by omega) (by omega)]
  rw [civilFromDays_daysFromCivil d.year d.month d.day h1 h2 h3 h4]
  have e1 : (d.hour * 3600000 + d.minute * 60000 + d.second * 1000) / 3600000 = d.hour := by
    omega
  have e2 : (d.hour * 3600000 + d.minute * 60000 + d.second * 1000) / 60000 % 60 =
      d.minute := by omega
  have e3 : (d.hour * 3600000 + d.minute * 60000 + d.second * 1000) / 1000 % 60 =
      d.second := by omega
  have e4 : (d.hour * 3600000 + d.minute * 60000 + d.second * 1000) % 1000 = 0 := by omega
  rw [e1, e2, e3, e4]

theorem setFullYear_ranges (dt : JSDate) (y : Int) :
    0 ≤ (setFullYear dt y).month ∧ (setFullYear dt y).month ≤ 11 ∧
    1 ≤ (setFullYear dt y).day ∧ (setFullYear dt y).day ≤ 31 := by
  simp only [setFullYear]
  exact civilFromDays_ranges _

theorem timeOfDayMs_setFullYear (dt : JSDate) (y : Int) :
    timeOfDayMs (setFullYear dt y) = timeOfDayMs dt := rfl

/-- Carrying an out-of-range month into the year does not change the date. -/
theorem daysFromCivil_carry (y m d : Int) :
    daysFromCivil y m d = daysFromCivil (y + m / 12) (m % 12) d := by
  rw [daysFromCivil_eq_monthStart, daysFromCivil_eq_monthStart]
  have he : 12 * (y + m / 12) + m % 12 = 12 * y + m := by omega
  rw [he]

/-- Comparison of year-aligned dates is dominated by the year. -/
theorem dfc_lt_of_year_lt (y1 d1 y2 d2 : Int) (h : y1 < y2)
    (hd1 : 1 ≤ d1) (hd2 : d1 ≤ 31) (hd3 : 1 ≤ d2) (hd4 : d2 ≤ 31) :
    daysFromCivil y1 0 d1 < daysFromCivil y2 0 d2 := by
  rw [daysFromCivil_eq_monthStart, daysFromCivil_eq_monthStart]
  simp only [add_zero]
  obtain ⟨hg, _⟩ := monthStart_gap (12 * y1) (12 * y2) (by omega)
  omega

/- Closed forms of `incrementDateByScaleType` for each scale type, on a
normalized date. -/

theorem increment_millennium_eq (d : JSDate) (h : Normalized d) (k : Int) :
    ∃ d1 : Int, 1 ≤ d1 ∧ d1 ≤ 31 ∧
      toTimestamp (incrementDateByScaleType d "millennium" k) =
        daysFromCivil ((d.year + k * 1000) / 1000 * 1000) 0 d1 * msPerDay +
          timeOfDayMs d := by
  obtain ⟨h1, h2, h3, h4, _⟩ := h
  have hb := daysInMonth_bounds d.year d.month
  have hu : incrementDateByScaleType d "millennium" k =
      setMonth (setFullYear d ((d.year + k * 1000) / 1000 * 1000)) 0 := rfl
  rw [hu, toTimestamp_setMonth]
  have hy := setFullYear_year d ((d.year + k * 1000) / 1000 * 1000) h1 h2 h3 (by omega)
  have hr := setFullYear_ranges d ((d.year + k * 1000) / 1000 * 1000)
  exact ⟨_, hr.2.2.1, hr.2.2.2, by rw [hy, timeOfDayMs_setFullYear]⟩

theorem increment_century_eq (d : JSDate) (h : Normalized d) (k : Int) :
    ∃ d1 : Int, 1 ≤ d1 ∧ d1 ≤ 31 ∧
      toTimestamp (incrementDateByScaleType d "century" k) =
        daysFromCivil ((d.year + k * 100) / 100 * 100) 0 d1 * msPerDay +
          timeOfDayMs d := by
  obtain ⟨h1, h2, h3, h4, _⟩ := h
  have hb := daysInMonth_bounds d.year d.month
  have hu : incrementDateByScaleType d "century" k =
      setMonth (setFullYear d ((d.year + k * 100) / 100 * 100)) 0 := rfl
  rw [hu, toTimestamp_setMonth]
  have hy := setFullYear_year d ((d.year + k * 100) / 100 * 100) h1 h2 h3 (by omega)
  have hr := setFullYear_ranges d ((d.year + k * 100) / 100 * 100)
  exact ⟨_, hr.2.2.1, hr.2.2.2, by rw [hy, timeOfDayMs_setFullYear]⟩

theorem increment_decade_eq (d : JSDate) (h : Normalized d) (k : Int) :
    ∃ d1 : Int, 1 ≤ d1 ∧ d1 ≤ 31 ∧
      toTimestamp (incrementDateByScaleType d "decade" k) =
        daysFromCivil ((d.year + k * 10) / 10 * 10) 0 d1 * msPerDay +
          timeOfDayMs d := by
  obtain ⟨h1, h2, h3, h4, _⟩ := h
  have hb := daysInMonth_bounds d.year d.month
  have hu : incrementDateByScaleType d "decade" k =
      setMonth (setFullYear d ((d.year + k * 10) / 10 * 10)) 0 := rfl
  rw [hu, toTimestamp_setMonth]
  have hy := setFullYear_year d ((d.year + k * 10) / 10 * 10) h1 h2 h3 (by omega)
  have hr := setFullYear_ranges d ((d.year + k * 10) / 10 * 10)
  exact ⟨_, hr.2.2.1, hr.2.2.2, by rw [hy, timeOfDayMs_setFullYear]⟩

theorem increment_year_eq (d : JSDate) (h : Normalized d) (k : Int) :
    ∃ d1 : Int, 1 ≤ d1 ∧ d1 ≤ 31 ∧
      toTimestamp (incrementDateByScaleType d "year" k) =
        daysFromCivil (d.year + k) 0 d1 * msPerDay + timeOfDayMs d := by
  obtain ⟨h1, h2, h3, h4, _⟩ := h
  have hb := daysInMonth_bounds d.year d.month
  have hu : incrementDateByScaleType d "year" k =
      setMonth (setFullYear d (d.year + k)) 0 := rfl
  rw [hu, toTimestamp_setMonth]
  have hy := setFullYear_year d (d.year + k) h1 h2 h3 (by omega)
  have hr := setFullYear_ranges d (d.year + k)
  exact ⟨_, hr.2.2.1, hr.2.2.2, by rw [hy, timeOfDayMs_setFullYear]⟩

theorem increment_month_eq (d : JSDate) (h : Normalized d) (k : Int) :
    incrementDateByScaleType d "month" k =
      ⟨d.year + (d.month + k) / 12, (d.month + k) % 12, 1, 0, 0, 0, 0⟩ := by
  obtain ⟨h1, h2, h3, h4, h5, h6, h7, h8, h9, h10, h11, h12⟩ := h
  have hb := daysInMonth_bounds d.year d.month
  have hu : incrementDateByScaleType d "month" k =
      setMonth (setMilliseconds (setSeconds (setMinutes (setHours (setDate d 1) 0) 0) 0) 0)
        ((setMilliseconds (setSeconds (setMinutes (setHours (setDate d 1) 0) 0) 0) 0).month
          + k) := rfl
  rw [hu]
  have e1 : setDate d 1 = ⟨d.year, d.month, 1, d.hour, d.minute, d.second, d.ms⟩ :=
    setDate_valid d 1 h1 h2 (by omega) (by omega)
  rw [e1]
  have e2 := setHours_zero ⟨d.year, d.month, 1, d.hour, d.minute, d.second, d.ms⟩
    ⟨h1, h2, by dsimp only; omega, by dsimp only; omega, h5, h6, h7, h8, h9, h10, h11, h12⟩
  rw [e2]
  have e3 := setMinutes_zero ⟨d.year, d.month, 1, 0, d.minute, d.second, d.ms⟩
    ⟨h1, h2, by dsimp only; omega, by dsimp only; omega, by dsimp only; omega, by dsimp only; omega, h7, h8, h9, h10, h11, h12⟩
  rw [e3]
  have e4 := setSeconds_zero ⟨d.year, d.month, 1, 0, 0, d.second, d.ms⟩
    ⟨h1, h2, by dsimp only; omega, by dsimp only; omega, by dsimp only; omega, by dsimp only; omega, by dsimp only; omega, by dsimp only; omega,
     h9, h10, h11, h12⟩
  rw [e4]
  have e5 := setMilliseconds_zero ⟨d.year, d.month, 1, 0, 0, 0, d.ms⟩
    ⟨h1, h2, by dsimp only; omega, by dsimp only; omega, by dsimp only; omega, by dsimp only; omega, by dsimp only; omega, by dsimp only; omega,
     by dsimp only; omega, by dsimp only; omega, h11, h12⟩
  rw [e5]
  show setMonth ⟨d.year, d.month, 1, 0, 0, 0, 0⟩ (d.month + k) = _
  simp only [setMonth]
  rw [daysFromCivil_carry d.year (d.month + k) 1]
  rw [civilFromDays_daysFromCivil (d.year + (d.month + k) / 12) ((d.month + k) % 12) 1
    (by omega) (by omega) (by omega)
    (by have := daysInMonth_bounds (d.year + (d.month + k) / 12) ((d.month + k) % 12); omega)]

theorem increment_date_eq (d : JSDate) (h : Normalized d) (n : Int) :
    incrementDateByScaleType d "date" n =
      setDate ⟨d.year, d.month, d.day, 0, 0, 0, 0⟩ (d.day + n) := by
  obtain ⟨h1, h2, h3, h4, h5, h6, h7, h8, h9, h10, h11, h12⟩ := h
  have hu : incrementDateByScaleType d "date" n =
      setDate (setMilliseconds (setSeconds (setMinutes (setHours d 0) 0) 0) 0)
        ((setMilliseconds (setSeconds (setMinutes (setHours d 0) 0) 0) 0).day + n) := rfl
  rw [hu]
  have e2 := setHours_zero d ⟨h1, h2, h3, h4, h5, h6, h7, h8, h9, h10, h11, h12⟩
  rw [e2]
  have e3 := setMinutes_zero ⟨d.year, d.month, d.day, 0, d.minute, d.second, d.ms⟩
    ⟨h1, h2, by dsimp only; omega, by dsimp only; omega, by dsimp only; omega,
     by dsimp only; omega, h7, h8, h9, h10, h11, h12⟩
  rw [e3]
  have e4 := setSeconds_zero ⟨d.year, d.month, d.day, 0, 0, d.second, d.ms⟩
    ⟨h1, h2, by dsimp only; omega, by dsimp only; omega, by dsimp only; omega,
     by dsimp only; omega, by dsimp only; omega, by dsimp only; omega, h9, h10, h11, h12⟩
  rw [e4]
  have e5 := setMilliseconds_zero ⟨d.year, d.month, d.day, 0, 0, 0, d.ms⟩
    ⟨h1, h2, by dsimp only; omega, by dsimp only; omega, by dsimp only; omega,
     by dsimp only; omega, by dsimp only; omega, by dsimp only; omega,
     by dsimp only; omega, by dsimp only; omega, h11, h12⟩
  rw [e5]

theorem increment_hour_eq (d : JSDate) (h : Normalized d) (n : Int) :
    incrementDateByScaleType d "hour" n =
      setHours ⟨d.year, d.month, d.day, d.hour, 0, 0, 0⟩ (d.hour + n) := by
  obtain ⟨h1, h2, h3, h4, h5, h6, h7, h8, h9, h10, h11, h12⟩ := h
  have hu : incrementDateByScaleType d "hour" n =
      setHours (setMilliseconds (setSeconds (setMinutes d 0) 0) 0)
        ((setMilliseconds (setSeconds (setMinutes d 0) 0) 0).hour + n) := rfl
  rw [hu]
  have e3 := setMinutes_zero d ⟨h1, h2, h3, h4, h5, h6, h7, h8, h9, h10, h11, h12⟩
  rw [e3]
  have e4 := setSeconds_zero ⟨d.year, d.month, d.day, d.hour, 0, d.second, d.ms⟩
    ⟨h1, h2, by dsimp only; omega, by dsimp only; omega, by dsimp only; omega,
     by dsimp only; omega, by dsimp only; omega, by dsimp only; omega, h9, h10, h11, h12⟩
  rw [e4]
  have e5 := setMilliseconds_zero ⟨d.year, d.month, d.day, d.hour, 0, 0, d.ms⟩
    ⟨h1, h2, by dsimp only; omega, by dsimp only; omega, by dsimp only; omega,
     by dsimp only; omega, by dsimp only; omega, by dsimp only; omega,
     by dsimp only; omega, by dsimp only; omega, h11, h12⟩
  rw [e5]

theorem increment_minute_eq (d : JSDate) (h : Normalized d) (n : Int) :
    incrementDateByScaleType d "minute" n =
      setMinutes ⟨d.year, d.month, d.day, d.hour, d.minute, 0, 0⟩ (d.minute + n) := by
  obtain ⟨h1, h2, h3, h4, h5, h6, h7, h8, h9, h10, h11, h12⟩ := h
  have hu : incrementDateByScaleType d "minute" n =
      setMinutes (setMilliseconds (setSeconds d 0) 0)
        ((setMilliseconds (setSeconds d 0) 0).minute + n) := rfl
  rw [hu]
  have e4 := setSeconds_zero d ⟨h1, h2, h3, h4, h5, h6, h7, h8, h9, h10, h11, h12⟩
  rw [e4]
  have e5 := setMilliseconds_zero ⟨d.year, d.month, d.day, d.hour, d.minute, 0, d.ms⟩
    ⟨h1, h2, by dsimp only; omega, by dsimp only; omega, by dsimp only; omega,
     by dsimp only; omega, by dsimp only; omega, by dsimp only; omega,
     by dsimp only; omega, by dsimp only; omega, h11, h12⟩
  rw [e5]

theorem increment_second_eq (d : JSDate) (h : Normalized d) (n : Int) :
    incrementDateByScaleType d "second" n =
      setSeconds ⟨d.year, d.month, d.day, d.hour, d.minute, d.second, 0⟩ (d.second + n) := by
  obtain ⟨h1, h2, h3, h4, h5, h6, h7, h8, h9, h10, h11, h12⟩ := h
  have hu : incrementDateByScaleType d "second" n =
      setSeconds (setMilliseconds d 0) ((setMilliseconds d 0).second + n) := rfl
  rw [hu]
  have e5 := setMilliseconds_zero d ⟨h1, h2, h3, h4, h5, h6, h7, h8, h9, h10, h11, h12⟩
  rw [e5]

theorem increment_millisecond_eq (d : JSDate) (n : Int) :
    incrementDateByScaleType d "millisecond" n = setMilliseconds d (d.ms + n) := rfl

theorem toTimestamp_mk (y m dd hh mi s ms : Int) :
    toTimestamp ⟨y, m, dd, hh, mi, s, ms⟩ =
      daysFromCivil y m dd * msPerDay + (hh * 3600000 + mi * 60000 + s * 1000 + ms) := rfl

theorem toTimestamp_setHours (dt : JSDate) (v : Int) :
    toTimestamp (setHours dt v) =
      daysFromCivil dt.year dt.month dt.day * msPerDay +
        v * 3600000 + dt.minute * 60000 + dt.second * 1000 + dt.ms := by
  simp only [setHours]
  rw [toTimestamp_ofTimestamp]

theorem toTimestamp_setMinutes (dt : JSDate) (v : Int) :
    toTimestamp (setMinutes dt v) =
      daysFromCivil dt.year dt.month dt.day * msPerDay +
        dt.hour * 3600000 + v * 60000 + dt.second * 1000 + dt.ms := by
  simp only [setMinutes]
  rw [toTimestamp_ofTimestamp]

theorem toTimestamp_setSeconds (dt : JSDate) (v : Int) :
    toTimestamp (setSeconds dt v) =
      daysFromCivil dt.year dt.month dt.day * msPerDay +
        dt.hour * 3600000 + dt.minute * 60000 + v * 1000 + dt.ms := by
  simp only [setSeconds]
  rw [toTimestamp_ofTimestamp]

theorem toTimestamp_setMilliseconds (dt : JSDate) (v : Int) :
    toTimestamp (setMilliseconds dt v) =
      daysFromCivil dt.year dt.month dt.day * msPerDay +
        dt.hour * 3600000 + dt.minute * 60000 + dt.second * 1000 + v := by
  simp only [setMilliseconds]
  rw [toTimestamp_ofTimestamp]

/-- On a normalized date, advancing by more units of any recognized scale type
yields a strictly later instant. -/
theorem increment_strictMono (d : JSDate) (h : Normalized d) (g : String)
    (hg : g ∈ validScaleTypes) (k k' : Int) (hkk : k < k') :
    toTimestamp (incrementDateByScaleType d g k) <
      toTimestamp (incrementDateByScaleType d g k') := by
  have hms : msPerDay = 86400000 := rfl
  simp only [validScaleTypes, List.mem_cons, List.mem_singleton, List.not_mem_nil,
    or_false] at hg
  rcases hg with rfl | rfl | rfl | rfl | rfl | rfl | rfl | rfl | rfl | rfl
  · obtain ⟨d1, ha1, ha2, ha3⟩ := increment_millennium_eq d h k
    obtain ⟨d2, hb1, hb2, hb3⟩ := increment_millennium_eq d h k'
    rw [ha3, hb3]
    simp only [hms]
    have hy : (d.year + k * 1000) / 1000 * 1000 < (d.year + k' * 1000) / 1000 * 1000 := by
      omega
    have := dfc_lt_of_year_lt _ d1 _ d2 hy ha1 ha2 hb1 hb2
    omega
  · obtain ⟨d1, ha1, ha2, ha3⟩ := increment_century_eq d h k
    obtain ⟨d2, hb1, hb2, hb3⟩ := increment_century_eq d h k'
    rw [ha3, hb3]
    simp only [hms]
    have hy : (d.year + k * 100) / 100 * 100 < (d.year + k' * 100) / 100 * 100 := by
      omega
    have := dfc_lt_of_year_lt _ d1 _ d2 hy ha1 ha2 hb1 hb2
    omega
  · obtain ⟨d1, ha1, ha2, ha3⟩ := increment_decade_eq d h k
    obtain ⟨d2, hb1, hb2, hb3⟩ := increment_decade_eq d h k'
    rw [ha3, hb3]
    simp only [hms]
    have hy : (d.year + k * 10) / 10 * 10 < (d.year + k' * 10) / 10 * 10 := by omega
    have := dfc_lt_of_year_lt _ d1 _ d2 hy ha1 ha2 hb1 hb2
    omega
  · obtain ⟨d1, ha1, ha2, ha3⟩ := increment_year_eq d h k
    obtain ⟨d2, hb1, hb2, hb3⟩ := increment_year_eq d h k'
    rw [ha3, hb3]
    simp only [hms]
    have := dfc_lt_of_year_lt _ d1 _ d2 (show d.year + k < d.year + k' by omega)
      ha1 ha2 hb1 hb2
    omega
  · rw [increment_month_eq d h k, increment_month_eq d h k', toTimestamp_mk, toTimestamp_mk]
    rw [daysFromCivil_eq_monthStart, daysFromCivil_eq_monthStart]
    have e1 : 12 * (d.year + (d.month + k) / 12) + (d.month + k) % 12 =
        12 * d.year + d.month + k := by omega
    have e2 : 12 * (d.year + (d.month + k') / 12) + (d.month + k') % 12 =
        12 * d.year + d.month + k' := by omega
    rw [e1, e2]
    simp only [hms]
    obtain ⟨hg1, hg2⟩ := monthStart_gap (12 * d.year + d.month + k)
      (12 * d.year + d.month + k') (by omega)
    omega
  · rw [increment_date_eq d h k, increment_date_eq d h k']
    rw [toTimestamp_setDate, toTimestamp_setDate]
    simp only [timeOfDayMs, hms]
    rw [daysFromCivil_eq_monthStart, daysFromCivil_eq_monthStart]
    omega
  · rw [increment_hour_eq d h k, increment_hour_eq d h k']
    rw [toTimestamp_setHours, toTimestamp_setHours]
    simp only [hms]
    omega
  · rw [increment_minute_eq d h k, increment_minute_eq d h k']
    rw [toTimestamp_setMinutes, toTimestamp_setMinutes]
    simp only [hms]
    omega
  · rw [increment_second_eq d h k, increment_second_eq d h k']
    rw [toTimestamp_setSeconds, toTimestamp_setSeconds]
    simp only [hms]
    omega
  · rw [increment_millisecond_eq d k, increment_millisecond_eq d k']
    rw [toTimestamp_setMilliseconds, toTimestamp_setMilliseconds]
    simp only [hms]
    omega

/- ### Sorting helper: a sorted permutation of a strictly sorted list is
that list itself. -/

theorem sorted_perm_eq_of_key {α : Type} {β : Type} [LinearOrder β] (key : α → β) :
    ∀ (l₁ l₂ : List α), l₁.Perm l₂ →
      l₁.Chain' (fun a b => key a < key b) →
      l₂.Chain' (fun a b => key a ≤ key b) → l₁ = l₂ := by
  intro l₁
  induction l₁ with
  | nil =>
    intro l₂ hp _ _
    exact (hp.nil_eq).symm ▸ rfl
  | cons a t₁ ih =>
    intro l₂ hp hc₁ hc₂
    rcases l₂ with _ | ⟨b, t₂⟩
    · exact absurd hp.symm.nil_eq (by simp)
    have instT : IsTrans α fun x y => key x < key y :=
      ⟨fun x y z hx hy => lt_trans hx hy⟩
    have instT' : IsTrans α fun x y => key x ≤ key y :=
      ⟨fun x y z hx hy => le_trans hx hy⟩
    have hpw₁ : (a :: t₁).Pairwise (fun x y => key x < key y) :=
      (List.chain'_iff_pairwise).mp hc₁
    have hpw₂ : (b :: t₂).Pairwise (fun x y => key x ≤ key y) :=
      (List.chain'_iff_pairwise).mp hc₂
    have hmin₁ : ∀ x ∈ t₁, key a < key x := (List.pairwise_cons.mp hpw₁).1
    have hmin₂ : ∀ x ∈ t₂, key b ≤ key x := (List.pairwise_cons.mp hpw₂).1
    have hb : b ∈ a :: t₁ := hp.symm.subset (List.mem_cons_self b t₂)
    have ha : a ∈ b :: t₂ := hp.subset (List.mem_cons_self a t₁)
    have hba : key b ≤ key a := by
      rcases List.mem_cons.mp ha with rfl | hat₂
      · exact le_refl _
      · exact hmin₂ a hat₂
    have hab : b = a := by
      rcases List.mem_cons.mp hb with rfl | hbt₁
      · rfl
      · exact absurd (hmin₁ b hbt₁) (not_lt.mpr hba)
    subst hab
    have hp' : t₁.Perm t₂ := hp.cons_inv
    have := ih t₂ hp' hc₁.tail hc₂.tail
    rw [this]

theorem zip_map_fst_snd {α β : Type} : ∀ (l : List (α × β)),
    (l.map Prod.fst).zip (l.map Prod.snd) = l
  | [] => rfl
  | p :: t => by simp [zip_map_fst_snd t]

/- ### GridBuilder: the grid-line construction of `Timeline.draw` -/

/-- The full state of a `Timeline` object (rendering-only fields omitted). -/
structure TimelineState where
  title : String
  scaleWidth : ℚ
  scaleType : String
  focusDate : JSDate
  focusX : ℚ
  yOffset : ℚ
  canvasWidth : ℚ
  linePosArr : List ℚ
  lineDateArr : List JSDate

/-- Iteration count of draw's first grid loop (`while (curGridLineX <
canvasWidth)`, starting with `curGridLineX = 0`): iteration `k` pushes the
line at `focusX + k * scaleWidth`, and iteration `k ≥ 1` runs exactly when
the previously pushed line was still left of the canvas edge. -/
def upCount (focusX scaleWidth canvasWidth : ℚ) : ℕ :=
  if 0 < canvasWidth then 1 + (⌈(canvasWidth - focusX) / scaleWidth⌉).toNat else 0

/-- Iteration count of draw's second grid loop (`while (curGridLineX > 0)`,
starting with `curGridLineX = canvas.width`): iteration `j ≥ 1` pushes the
line at `focusX - j * scaleWidth`. -/
def downCount (focusX scaleWidth canvasWidth : ℚ) : ℕ :=
  if 0 < canvasWidth then 1 + (⌈focusX / scaleWidth⌉ - 1).toNat else 0

/-- The (date, pixel-x) pairs pushed by the two grid loops of
`Timeline.draw`, in push order: first the focus line and the lines right of
it (offsets 0, 1, 2, …), then the lines left of it (offsets -1, -2, …). -/
def buildGridPairs (focusDate : JSDate) (scaleType : String)
    (scaleWidth focusX canvasWidth : ℚ) : List (JSDate × ℚ) :=
  (List.range (upCount focusX scaleWidth canvasWidth)).map
      (fun (k : ℕ) => (incrementDateByScaleType focusDate scaleType (k : Int),
                 focusX + (k : ℚ) * scaleWidth)) ++
  (List.range (downCount focusX scaleWidth canvasWidth)).map
      (fun (j : ℕ) => (incrementDateByScaleType focusDate scaleType (-((j : Int) + 1)),
                 focusX - ((j : ℚ) + 1) * scaleWidth))

/-- The in-place ascending sort of the grid date array
(`sort((a, b) => a - b)` on `Date`s compares time values). -/
def jsSortDates (l : List JSDate) : List JSDate :=
  l.insertionSort (fun a b => toTimestamp a ≤ toTimestamp b)

/-- The in-place ascending sort of the grid position array. -/
def jsSortNumbers (l : List ℚ) : List ℚ :=
  l.insertionSort (fun a b => a ≤ b)

/-- `Timeline.draw`, restricted to its state effect: clamps the scale width
to at least 1, rebuilds the grid arrays and sorts each of them ascending. -/
def draw (st : TimelineState) : TimelineState :=
  let s := if st.scaleWidth < 1 then 1 else st.scaleWidth
  let pairs := buildGridPairs st.focusDate st.scaleType s st.focusX st.canvasWidth
  { st with scaleWidth := s,
            lineDateArr := jsSortDates (pairs.map Prod.fst),
            linePosArr := jsSortNumbers (pairs.map Prod.snd) }

/-- The grid offsets in ascending order: -m, …, -1, 0, 1, …, n-1. -/
def sortedKList (m n : ℕ) : List Int :=
  (List.range (m + n)).map (fun (i : ℕ) => (i : Int) - m)

theorem rev_desc (m : ℕ) (c : Int) :
    ((List.range m).map (fun (j : ℕ) => c - (j : Int))).reverse =
      (List.range m).map (fun (i : ℕ) => c - m + 1 + (i : Int)) := by
  induction m with
  | zero => rfl
  | succ k ih =>
    conv_rhs => rw [List.range_succ_eq_map]
    conv_lhs => rw [List.range_succ]
    rw [List.map_append, List.reverse_append]
    simp only [List.map_cons, List.map_nil, List.reverse_cons, List.reverse_nil,
      List.nil_append, List.singleton_append, List.map_map]
    rw [ih]
    congr 1
    · push_cast; ring
    · apply List.map_congr_left
      intro a _
      simp only [Function.comp]
      push_cast
      ring

theorem sortedKList_eq (m n : ℕ) :
    sortedKList m n =
      ((List.range m).map (fun (j : ℕ) => -((j : Int) + 1))).reverse ++
        (List.range n).map (fun (i : ℕ) => (i : Int)) := by
  have h1 : ((List.range m).map (fun (j : ℕ) => -((j : Int) + 1))) =
      ((List.range m).map (fun (j : ℕ) => (-1 : Int) - (j : Int))) := by
    apply List.map_congr_left; intro a _; ring
  rw [h1, rev_desc m (-1)]
  simp only [sortedKList]
  rw [List.range_add, List.map_append, List.map_map]
  congr 1
  · apply List.map_congr_left
    intro a _
    push_cast
    ring
  · apply List.map_congr_left
    intro a _
    simp only [Function.comp]
    push_cast
    ring

theorem kperm (m n : ℕ) :
    (((List.range n).map (fun (i : ℕ) => (i : Int))) ++
      ((List.range m).map (fun (j : ℕ) => -((j : Int) + 1)))).Perm (sortedKList m n) := by
  rw [sortedKList_eq]
  refine (List.perm_append_comm).trans (List.Perm.append ?_ (List.Perm.refl _))
  exact (List.reverse_perm _).symm

theorem chain'_map_sortedK {α : Type} (R : α → α → Prop) (g : Int → α) (m n : ℕ)
    (h : ∀ k k' : Int, k < k' → R (g k) (g k')) :
    List.Chain' R ((sortedKList m n).map g) := by
  simp only [sortedKList, List.map_map]
  rw [List.chain'_map]
  rcases hmn : m + n with _ | N
  · simp
  · rw [List.chain'_range_succ]
    intro i hi
    simp only [Function.comp]
    apply h
    push_cast
    omega

theorem buildGridPairs_perm (fd : JSDate) (g : String) (s fx W : ℚ) :
    (buildGridPairs fd g s fx W).Perm
      ((sortedKList (downCount fx s W) (upCount fx s W)).map
        (fun (k : Int) => (incrementDateByScaleType fd g k, fx + (k : ℚ) * s))) := by
  have hup : (List.range (upCount fx s W)).map
        (fun (k : ℕ) => (incrementDateByScaleType fd g k, fx + (k : ℚ) * s)) =
      ((List.range (upCount fx s W)).map (fun (i : ℕ) => (i : Int))).map
        (fun (k : Int) => (incrementDateByScaleType fd g k, fx + (k : ℚ) * s)) := by
    rw [List.map_map]
    apply List.map_congr_left
    intro a _
    simp only [Function.comp]
    norm_num
  have hdn : (List.range (downCount fx s W)).map
        (fun (j : ℕ) => (incrementDateByScaleType fd g (-((j : Int) + 1)),
          fx - ((j : ℚ) + 1) * s)) =
      ((List.range (downCount fx s W)).map (fun (j : ℕ) => -((j : Int) + 1))).map
        (fun (k : Int) => (incrementDateByScaleType fd g k, fx + (k : ℚ) * s)) := by
    rw [List.map_map]
    apply List.map_congr_left
    intro a _
    simp only [Function.comp, Prod.mk.injEq]
    refine ⟨by norm_num, by push_cast; ring⟩
  rw [buildGridPairs, hup, hdn, ← List.map_append]
  exact List.Perm.map _ (kperm (downCount fx s W) (upCount fx s W))

theorem grid_sorted_canonical (fd : JSDate) (hfd : Normalized fd) (g : String)
    (hg : g ∈ validScaleTypes) (s fx W : ℚ) (hs : 1 ≤ s) :
    jsSortDates ((buildGridPairs fd g s fx W).map Prod.fst) =
      (sortedKList (downCount fx s W) (upCount fx s W)).map
        (fun (k : Int) => incrementDateByScaleType fd g k) ∧
    jsSortNumbers ((buildGridPairs fd g s fx W).map Prod.snd) =
      (sortedKList (downCount fx s W) (upCount fx s W)).map
        (fun (k : Int) => fx + (k : ℚ) * s) := by
  have hperm := buildGridPairs_perm fd g s fx W
  constructor
  · have hmm : ((sortedKList (downCount fx s W) (upCount fx s W)).map
        (fun (k : Int) => (incrementDateByScaleType fd g k, fx + (k : ℚ) * s))).map Prod.fst =
        (sortedKList (downCount fx s W) (upCount fx s W)).map
          (fun (k : Int) => incrementDateByScaleType fd g k) := by
      rw [List.map_map]; rfl
    have hp1 : ((buildGridPairs fd g s fx W).map Prod.fst).Perm
        ((sortedKList (downCount fx s W) (upCount fx s W)).map
          (fun (k : Int) => incrementDateByScaleType fd g k)) := by
      rw [← hmm]; exact hperm.map Prod.fst
    haveI : IsTotal JSDate (fun a b => toTimestamp a ≤ toTimestamp b) :=
      ⟨fun a b => le_total _ _⟩
    haveI : IsTrans JSDate (fun a b => toTimestamp a ≤ toTimestamp b) :=
      ⟨fun a b c h1 h2 => le_trans h1 h2⟩
    have hsorted := List.sorted_insertionSort
      (fun a b => toTimestamp a ≤ toTimestamp b)
      ((buildGridPairs fd g s fx W).map Prod.fst)
    have hchainle : (jsSortDates ((buildGridPairs fd g s fx W).map Prod.fst)).Chain'
        (fun a b => toTimestamp a ≤ toTimestamp b) := hsorted.chain'
    have hchainlt : ((sortedKList (downCount fx s W) (upCount fx s W)).map
        (fun (k : Int) => incrementDateByScaleType fd g k)).Chain'
          (fun a b => toTimestamp a < toTimestamp b) :=
      chain'_map_sortedK _ _ _ _ (fun k k' hk => increment_strictMono fd hfd g hg k k' hk)
    have hp2 : ((sortedKList (downCount fx s W) (upCount fx s W)).map
        (fun (k : Int) => incrementDateByScaleType fd g k)).Perm
          (jsSortDates ((buildGridPairs fd g s fx W).map Prod.fst)) :=
      (hp1.symm).trans (List.perm_insertionSort _ _).symm
    exact (sorted_perm_eq_of_key toTimestamp _ _ hp2 hchainlt hchainle).symm
  · have hmm : ((sortedKList (downCount fx s W) (upCount fx s W)).map
        (fun (k : Int) => (incrementDateByScaleType fd g k, fx + (k : ℚ) * s))).map Prod.snd =
        (sortedKList (downCount fx s W) (upCount fx s W)).map
          (fun (k : Int) => fx + (k : ℚ) * s) := by
      rw [List.map_map]; rfl
    have hp1 : ((buildGridPairs fd g s fx W).map Prod.snd).Perm
        ((sortedKList (downCount fx s W) (upCount fx s W)).map
          (fun (k : Int) => fx + (k : ℚ) * s)) := by
      rw [← hmm]; exact hperm.map Prod.snd
    haveI : IsTotal ℚ (fun a b => a ≤ b) := ⟨fun a b => le_total _ _⟩
    haveI : IsTrans ℚ (fun a b => a ≤ b) := ⟨fun a b c h1 h2 => le_trans h1 h2⟩
    have hsorted := List.sorted_insertionSort (fun (a b : ℚ) => a ≤ b)
      ((buildGridPairs fd g s fx W).map Prod.snd)
    have hchainle : (jsSortNumbers ((buildGridPairs fd g s fx W).map Prod.snd)).Chain'
        (fun a b => a ≤ b) := hsorted.chain'
    have hchainlt : ((sortedKList (downCount fx s W) (upCount fx s W)).map
        (fun (k : Int) => fx + (k : ℚ) * s)).Chain' (fun a b => a < b) := by
      apply chain'_map_sortedK (fun (a b : ℚ) => a < b)
      intro k k' hk
      have hk' : (k : ℚ) < (k' : ℚ) := by exact_mod_cast hk
      nlinarith
    have hp2 : ((sortedKList (downCount fx s W) (upCount fx s W)).map
        (fun (k : Int) => fx + (k : ℚ) * s)).Perm
          (jsSortNumbers ((buildGridPairs fd g s fx W).map Prod.snd)) :=
      (hp1.symm).trans (List.perm_insertionSort _ _).symm
    exact (sorted_perm_eq_of_key (fun (q : ℚ) => q) _ _ hp2 hchainlt hchainle).symm

/-- C3: For every focus state (normalized focus date, focus pixel-x, valid
granularity, unit pixel width at least 1) and every viewport width, the grid
arrays produced by one `draw` pass — which sorts each array ascending — are
the index-aligned images of the ascending offset list, so dates are strictly
increasing paired with strictly increasing pixel positions, and (whenever the
viewport is non-degenerate, so the grid is non-empty) the grid line generated
for the focus date (offset 0) lies at exactly the focus pixel-x. -/
theorem C3_grid_monotone (st : TimelineState) (hfd : Normalized st.focusDate)
    (hg : st.scaleType ∈ validScaleTypes) (hs : 1 ≤ st.scaleWidth) :
    ((draw st).lineDateArr).Chain' (fun a b => toTimestamp a < toTimestamp b) ∧
    ((draw st).linePosArr).Chain' (fun a b => a < b) ∧
    ((draw st).lineDateArr).zip ((draw st).linePosArr) =
      (sortedKList (downCount st.focusX st.scaleWidth st.canvasWidth)
                   (upCount st.focusX st.scaleWidth st.canvasWidth)).map
        (fun (k : Int) => (incrementDateByScaleType st.focusDate st.scaleType k,
                           st.focusX + (k : ℚ) * st.scaleWidth)) ∧
    (0 < st.canvasWidth →
      (incrementDateByScaleType st.focusDate st.scaleType 0, st.focusX) ∈
        ((draw st).lineDateArr).zip ((draw st).linePosArr)) := by
  have hclamp : (if st.scaleWidth < 1 then 1 else st.scaleWidth) = st.scaleWidth :=
    if_neg (not_lt.mpr hs)
  obtain ⟨hD, hP⟩ := grid_sorted_canonical st.focusDate hfd st.scaleType hg
    st.scaleWidth st.focusX st.canvasWidth hs
  have hDate : (draw st).lineDateArr =
      (sortedKList (downCount st.focusX st.scaleWidth st.canvasWidth)
                   (upCount st.focusX st.scaleWidth st.canvasWidth)).map
        (fun (k : Int) => incrementDateByScaleType st.focusDate st.scaleType k) := by
    simp only [draw, hclamp]
    exact hD
  have hPos : (draw st).linePosArr =
      (sortedKList (downCount st.focusX st.scaleWidth st.canvasWidth)
                   (upCount st.focusX st.scaleWidth st.canvasWidth)).map
        (fun (k : Int) => st.focusX + (k : ℚ) * st.scaleWidth) := by
    simp only [draw, hclamp]
    exact hP
  have hzip : ((draw st).lineDateArr).zip ((draw st).linePosArr) =
      (sortedKList (downCount st.focusX st.scaleWidth st.canvasWidth)
                   (upCount st.focusX st.scaleWidth st.canvasWidth)).map
        (fun (k : Int) => (incrementDateByScaleType st.focusDate st.scaleType k,
                           st.focusX + (k : ℚ) * st.scaleWidth)) := by
    rw [hDate, hPos, List.zip_map']
  refine ⟨?_, ?_, hzip, ?_⟩
  · rw [hDate]
    exact chain'_map_sortedK _ _ _ _
      (fun k k' hk => increment_strictMono st.focusDate hfd st.scaleType hg k k' hk)
  · rw [hPos]
    apply chain'_map_sortedK (fun (a b : ℚ) => a < b)
    intro k k' hk
    have hk' : (k : ℚ) < (k' : ℚ) := by exact_mod_cast hk
    nlinarith
  · intro hW
    rw [hzip]
    have hn : 1 ≤ upCount st.focusX st.scaleWidth st.canvasWidth := by
      simp only [upCount, if_pos hW]
      omega
    apply List.mem_map.mpr
    refine ⟨0, ?_, by norm_num⟩
    simp only [sortedKList, List.mem_map, List.mem_range]
    exact ⟨downCount st.focusX st.scaleWidth st.canvasWidth, by omega, by omega⟩

/-- Witness for C3 at a concrete focus state. -/
theorem C3_grid_monotone_witness :
    (let st : TimelineState :=
      { title := "", scaleWidth := 100, scaleType := "year",
        focusDate := ⟨2000, 0, 1, 0, 0, 0, 0⟩, focusX := 500, yOffset := 0,
        canvasWidth := 1000, linePosArr := [], lineDateArr := [] }
     Normalized st.focusDate ∧ st.scaleType ∈ validScaleTypes ∧
     (1 : ℚ) ≤ st.scaleWidth ∧
     (((draw st).lineDateArr).Chain' (fun a b => toTimestamp a < toTimestamp b) ∧
      ((draw st).linePosArr).Chain' (fun a b => a < b) ∧
      ((draw st).lineDateArr).zip ((draw st).linePosArr) =
        (sortedKList (downCount st.focusX st.scaleWidth st.canvasWidth)
                     (upCount st.focusX st.scaleWidth st.canvasWidth)).map
          (fun (k : Int) => (incrementDateByScaleType st.focusDate st.scaleType k,
                             st.focusX + (k : ℚ) * st.scaleWidth)) ∧
      (0 < st.canvasWidth →
        (incrementDateByScaleType st.focusDate st.scaleType 0, st.focusX) ∈
          ((draw st).lineDateArr).zip ((draw st).linePosArr)))) :=
  ⟨by decide, by decide, by norm_num,
   C3_grid_monotone _ (by decide) (by decide) (by norm_num)⟩


/-- One `if(this.#scaleType == name)` block of `updateScaleTypeByWidth`:
when the state's type matches `name`, a width above 200 transitions to
`hiRes` and a width below `loBound` transitions to `loRes`; otherwise the
state passes through unchanged. -/
def scaleBlock (name : String) (loBound : ℚ) (hiRes loRes : String × ℚ)
    (s : String × ℚ) : String × ℚ :=
  if s.1 = name then
    (if s.2 > 200 then hiRes else if s.2 < loBound then loRes else s)
  else s

/-- The final `millisecond` block: it unconditionally resets the width to 4
("I don't want to implement milliseconds"), which is below 5, so it always
falls back to second at width 200. -/
def msBlock (s : String × ℚ) : String × ℚ :=
  if s.1 = "millisecond" then
    (let t := (s.1, (4 : ℚ)); if t.2 < 5 then ("second", (200 : ℚ)) else t)
  else s

/-- `Timeline.updateScaleTypeByWidth` from timeline.js, acting on the
(scaleType, scaleWidth) pair: ten sequential (non-`else`) `if` blocks, each
observing the state left by the previous one. -/
def updateScaleTypeByWidth (scaleType : String) (scaleWidth : ℚ)
    (rescaleSpeed : ℚ) : String × ℚ :=
  msBlock
  (scaleBlock "second" 5 ("millisecond", 5) ("minute", 200)
  (scaleBlock "minute" 5 ("second", 5) ("hour", 200)
  (scaleBlock "hour" 10 ("minute", 5) ("date", 200)
  (scaleBlock "date" 10 ("hour", 10) ("month", 200)
  (scaleBlock "month" 20 ("date", 10) ("year", 200 - rescaleSpeed)
  (scaleBlock "year" 20 ("month", 200 / 12 + rescaleSpeed) ("decade", 200 - rescaleSpeed)
  (scaleBlock "decade" 20 ("year", 20 + rescaleSpeed) ("century", 200 - rescaleSpeed)
  (scaleBlock "century" 20 ("decade", 20 + rescaleSpeed) ("millennium", 200 - rescaleSpeed)
  (scaleBlock "millennium" 20 ("century", 20 + rescaleSpeed) ("millennium", 20)
  (scaleType, scaleWidth))))))))))

/-- The (scaleType, scaleWidth) component of `Timeline.rescale`:
`scaleWidth += rescaleSpeed` followed by `updateScaleTypeByWidth`. -/
def rescaleScale (s : String × ℚ) (rescaleSpeed : ℚ) : String × ℚ :=
  updateScaleTypeByWidth s.1 (s.2 + rescaleSpeed) rescaleSpeed

theorem scaleBlock_skip2 (name g : String) (b : ℚ) (hi lo : String × ℚ)
    (w : ℚ) (h : g ≠ name) : scaleBlock name b hi lo (g, w) = (g, w) := by
  simp only [scaleBlock]
  split_ifs <;> simp_all

theorem scaleBlock_mid (name : String) (b : ℚ) (hi lo : String × ℚ) (w : ℚ)
    (h1 : b ≤ w) (h2 : w ≤ 200) : scaleBlock name b hi lo (name, w) = (name, w) := by
  simp only [scaleBlock]
  split_ifs <;> simp_all <;> linarith

theorem scaleBlock_hi (name : String) (b : ℚ) (hi lo : String × ℚ) (w : ℚ)
    (h1 : 200 < w) : scaleBlock name b hi lo (name, w) = hi := by
  simp only [scaleBlock]
  split_ifs <;> simp_all <;> linarith

theorem scaleBlock_lo (name : String) (b : ℚ) (hi lo : String × ℚ) (w : ℚ)
    (h1 : w < b) (h2 : w ≤ 200) : scaleBlock name b hi lo (name, w) = lo := by
  simp only [scaleBlock]
  split_ifs <;> simp_all <;> linarith

theorem msBlock_skip2 (g : String) (w : ℚ) (h : g ≠ "millisecond") :
    msBlock (g, w) = (g, w) := by
  simp only [msBlock]
  split_ifs <;> simp_all

theorem msBlock_ms (w : ℚ) : msBlock ("millisecond", w) = ("second", 200) := by
  simp only [msBlock]
  norm_num

theorem msBlock_ne_ms (s : String × ℚ) : (msBlock s).1 ≠ "millisecond" := by
  simp only [msBlock]
  split_ifs <;> simp_all <;> linarith

theorem ms_millennium_mid (w δ : ℚ) (h1 : 20 ≤ w) (h2 : w ≤ 200) :
    updateScaleTypeByWidth "millennium" w δ = ("millennium", w) := by
  simp only [updateScaleTypeByWidth]
  rw [scaleBlock_mid "millennium" 20 _ _ w h1 h2,
      scaleBlock_skip2 "century" "millennium" _ _ _ _ (by decide),
      scaleBlock_skip2 "decade" "millennium" _ _ _ _ (by decide),
      scaleBlock_skip2 "year" "millennium" _ _ _ _ (by decide),
      scaleBlock_skip2 "month" "millennium" _ _ _ _ (by decide),
      scaleBlock_skip2 "date" "millennium" _ _ _ _ (by decide),
      scaleBlock_skip2 "hour" "millennium" _ _ _ _ (by decide),
      scaleBlock_skip2 "minute" "millennium" _ _ _ _ (by decide),
      scaleBlock_skip2 "second" "millennium" _ _ _ _ (by decide),
      msBlock_skip2 "millennium" _ (by decide)]

theorem ms_millennium_hi (w δ : ℚ) (h1 : 200 < w) (h2 : 20 ≤ 20 + δ) (h3 : 20 + δ ≤ 200) :
    updateScaleTypeByWidth "millennium" w δ = ("century", 20 + δ) := by
  simp only [updateScaleTypeByWidth]
  rw [scaleBlock_hi "millennium" 20 _ _ w h1,
      scaleBlock_mid "century" 20 _ _ (20 + δ) h2 h3,
      scaleBlock_skip2 "decade" "century" _ _ _ _ (by decide),
      scaleBlock_skip2 "year" "century" _ _ _ _ (by decide),
      scaleBlock_skip2 "month" "century" _ _ _ _ (by decide),
      scaleBlock_skip2 "date" "century" _ _ _ _ (by decide),
      scaleBlock_skip2 "hour" "century" _ _ _ _ (by decide),
      scaleBlock_skip2 "minute" "century" _ _ _ _ (by decide),
      scaleBlock_skip2 "second" "century" _ _ _ _ (by decide),
      msBlock_skip2 "century" _ (by decide)]

theorem ms_millennium_lo (w δ : ℚ) (h1 : w < 20) :
    updateScaleTypeByWidth "millennium" w δ = ("millennium", 20) := by
  simp only [updateScaleTypeByWidth]
  rw [scaleBlock_lo "millennium" 20 _ _ w h1 (by linarith),
      scaleBlock_skip2 "century" "millennium" _ _ _ _ (by decide),
      scaleBlock_skip2 "decade" "millennium" _ _ _ _ (by decide),
      scaleBlock_skip2 "year" "millennium" _ _ _ _ (by decide),
      scaleBlock_skip2 "month" "millennium" _ _ _ _ (by decide),
      scaleBlock_skip2 "date" "millennium" _ _ _ _ (by decide),
      scaleBlock_skip2 "hour" "millennium" _ _ _ _ (by decide),
      scaleBlock_skip2 "minute" "millennium" _ _ _ _ (by decide),
      scaleBlock_skip2 "second" "millennium" _ _ _ _ (by decide),
      msBlock_skip2 "millennium" _ (by decide)]

theorem ms_century_mid (w δ : ℚ) (h1 : 20 ≤ w) (h2 : w ≤ 200) :
    updateScaleTypeByWidth "century" w δ = ("century", w) := by
  simp only [updateScaleTypeByWidth]
  rw [scaleBlock_skip2 "millennium" "century" _ _ _ _ (by decide),
      scaleBlock_mid "century" 20 _ _ w h1 h2,
      scaleBlock_skip2 "decade" "century" _ _ _ _ (by decide),
      scaleBlock_skip2 "year" "century" _ _ _ _ (by decide),
      scaleBlock_skip2 "month" "century" _ _ _ _ (by decide),
      scaleBlock_skip2 "date" "century" _ _ _ _ (by decide),
      scaleBlock_skip2 "hour" "century" _ _ _ _ (by decide),
      scaleBlock_skip2 "minute" "century" _ _ _ _ (by decide),
      scaleBlock_skip2 "second" "century" _ _ _ _ (by decide),
      msBlock_skip2 "century" _ (by decide)]

theorem ms_century_hi (w δ : ℚ) (h1 : 200 < w) (h2 : 20 ≤ 20 + δ) (h3 : 20 + δ ≤ 200) :
    updateScaleTypeByWidth "century" w δ = ("decade", 20 + δ) := by
  simp only [updateScaleTypeByWidth]
  rw [scaleBlock_skip2 "millennium" "century" _ _ _ _ (by decide),
      scaleBlock_hi "century" 20 _ _ w h1,
      scaleBlock_mid "decade" 20 _ _ (20 + δ) h2 h3,
      scaleBlock_skip2 "year" "decade" _ _ _ _ (by decide),
      scaleBlock_skip2 "month" "decade" _ _ _ _ (by decide),
      scaleBlock_skip2 "date" "decade" _ _ _ _ (by decide),
      scaleBlock_skip2 "hour" "decade" _ _ _ _ (by decide),
      scaleBlock_skip2 "minute" "decade" _ _ _ _ (by decide),
      scaleBlock_skip2 "second" "decade" _ _ _ _ (by decide),
      msBlock_skip2 "decade" _ (by decide)]

theorem ms_century_lo (w δ : ℚ) (h1 : w < 20) :
    updateScaleTypeByWidth "century" w δ = ("millennium", 200 - δ) := by
  simp only [updateScaleTypeByWidth]
  rw [scaleBlock_skip2 "millennium" "century" _ _ _ _ (by decide),
      scaleBlock_lo "century" 20 _ _ w h1 (by linarith),
      scaleBlock_skip2 "decade" "millennium" _ _ _ _ (by decide),
      scaleBlock_skip2 "year" "millennium" _ _ _ _ (by decide),
      scaleBlock_skip2 "month" "millennium" _ _ _ _ (by decide),
      scaleBlock_skip2 "date" "millennium" _ _ _ _ (by decide),
      scaleBlock_skip2 "hour" "millennium" _ _ _ _ (by decide),
      scaleBlock_skip2 "minute" "millennium" _ _ _ _ (by decide),
      scaleBlock_skip2 "second" "millennium" _ _ _ _ (by decide),
      msBlock_skip2 "millennium" _ (by decide)]

theorem ms_decade_mid (w δ : ℚ) (h1 : 20 ≤ w) (h2 : w ≤ 200) :
    updateScaleTypeByWidth "decade" w δ = ("decade", w) := by
  simp only [updateScaleTypeByWidth]
  rw [scaleBlock_skip2 "millennium" "decade" _ _ _ _ (by decide),
      scaleBlock_skip2 "century" "decade" _ _ _ _ (by decide),
      scaleBlock_mid "decade" 20 _ _ w h1 h2,
      scaleBlock_skip2 "year" "decade" _ _ _ _ (by decide),
      scaleBlock_skip2 "month" "decade" _ _ _ _ (by decide),
      scaleBlock_skip2 "date" "decade" _ _ _ _ (by decide),
      scaleBlock_skip2 "hour" "decade" _ _ _ _ (by decide),
      scaleBlock_skip2 "minute" "decade" _ _ _ _ (by decide),
      scaleBlock_skip2 "second" "decade" _ _ _ _ (by decide),
      msBlock_skip2 "decade" _ (by decide)]

theorem ms_decade_hi (w δ : ℚ) (h1 : 200 < w) (h2 : 20 ≤ 20 + δ) (h3 : 20 + δ ≤ 200) :
    updateScaleTypeByWidth "decade" w δ = ("year", 20 + δ) := by
  simp only [updateScaleTypeByWidth]
  rw [scaleBlock_skip2 "millennium" "decade" _ _ _ _ (by decide),
      scaleBlock_skip2 "century" "decade" _ _ _ _ (by decide),
      scaleBlock_hi "decade" 20 _ _ w h1,
      scaleBlock_mid "year" 20 _ _ (20 + δ) h2 h3,
      scaleBlock_skip2 "month" "year" _ _ _ _ (by decide),
      scaleBlock_skip2 "date" "year" _ _ _ _ (by decide),
      scaleBlock_skip2 "hour" "year" _ _ _ _ (by decide),
      scaleBlock_skip2 "minute" "year" _ _ _ _ (by decide),
      scaleBlock_skip2 "second" "year" _ _ _ _ (by decide),
      msBlock_skip2 "year" _ (by decide)]

theorem ms_decade_lo (w δ : ℚ) (h1 : w < 20) :
    updateScaleTypeByWidth "decade" w δ = ("century", 200 - δ) := by
  simp only [updateScaleTypeByWidth]
  rw [scaleBlock_skip2 "millennium" "decade" _ _ _ _ (by decide),
      scaleBlock_skip2 "century" "decade" _ _ _ _ (by decide),
      scaleBlock_lo "decade" 20 _ _ w h1 (by linarith),
      scaleBlock_skip2 "year" "century" _ _ _ _ (by decide),
      scaleBlock_skip2 "month" "century" _ _ _ _ (by decide),
      scaleBlock_skip2 "date" "century" _ _ _ _ (by decide),
      scaleBlock_skip2 "hour" "century" _ _ _ _ (by decide),
      scaleBlock_skip2 "minute" "century" _ _ _ _ (by decide),
      scaleBlock_skip2 "second" "century" _ _ _ _ (by decide),
      msBlock_skip2 "century" _ (by decide)]

theorem ms_year_mid (w δ : ℚ) (h1 : 20 ≤ w) (h2 : w ≤ 200) :
    updateScaleTypeByWidth "year" w δ = ("year", w) := by
  simp only [updateScaleTypeByWidth]
  rw [scaleBlock_skip2 "millennium" "year" _ _ _ _ (by decide),
      scaleBlock_skip2 "century" "year" _ _ _ _ (by decide),
      scaleBlock_skip2 "decade" "year" _ _ _ _ (by decide),
      scaleBlock_mid "year" 20 _ _ w h1 h2,
      scaleBlock_skip2 "month" "year" _ _ _ _ (by decide),
      scaleBlock_skip2 "date" "year" _ _ _ _ (by decide),
      scaleBlock_skip2 "hour" "year" _ _ _ _ (by decide),
      scaleBlock_skip2 "minute" "year" _ _ _ _ (by decide),
      scaleBlock_skip2 "second" "year" _ _ _ _ (by decide),
      msBlock_skip2 "year" _ (by decide)]

theorem ms_year_hi (w δ : ℚ) (h1 : 200 < w) (h2 : 20 ≤ 200 / 12 + δ) (h3 : 200 / 12 + δ ≤ 200) :
    updateScaleTypeByWidth "year" w δ = ("month", 200 / 12 + δ) := by
  simp only [updateScaleTypeByWidth]
  rw [scaleBlock_skip2 "millennium" "year" _ _ _ _ (by decide),
      scaleBlock_skip2 "century" "year" _ _ _ _ (by decide),
      scaleBlock_skip2 "decade" "year" _ _ _ _ (by decide),
      scaleBlock_hi "year" 20 _ _ w h1,
      scaleBlock_mid "month" 20 _ _ (200 / 12 + δ) h2 h3,
      scaleBlock_skip2 "date" "month" _ _ _ _ (by decide),
      scaleBlock_skip2 "hour" "month" _ _ _ _ (by decide),
      scaleBlock_skip2 "minute" "month" _ _ _ _ (by decide),
      scaleBlock_skip2 "second" "month" _ _ _ _ (by decide),
      msBlock_skip2 "month" _ (by decide)]

theorem ms_year_lo (w δ : ℚ) (h1 : w < 20) :
    updateScaleTypeByWidth "year" w δ = ("decade", 200 - δ) := by
  simp only [updateScaleTypeByWidth]
  rw [scaleBlock_skip2 "millennium" "year" _ _ _ _ (by decide),
      scaleBlock_skip2 "century" "year" _ _ _ _ (by decide),
      scaleBlock_skip2 "decade" "year" _ _ _ _ (by decide),
      scaleBlock_lo "year" 20 _ _ w h1 (by linarith),
      scaleBlock_skip2 "month" "decade" _ _ _ _ (by decide),
      scaleBlock_skip2 "date" "decade" _ _ _ _ (by decide),
      scaleBlock_skip2 "hour" "decade" _ _ _ _ (by decide),
      scaleBlock_skip2 "minute" "decade" _ _ _ _ (by decide),
      scaleBlock_skip2 "second" "decade" _ _ _ _ (by decide),
      msBlock_skip2 "decade" _ (by decide)]

theorem ms_month_mid (w δ : ℚ) (h1 : 20 ≤ w) (h2 : w ≤ 200) :
    updateScaleTypeByWidth "month" w δ = ("month", w) := by
  simp only [updateScaleTypeByWidth]
  rw [scaleBlock_skip2 "millennium" "month" _ _ _ _ (by decide),
      scaleBlock_skip2 "century" "month" _ _ _ _ (by decide),
      scaleBlock_skip2 "decade" "month" _ _ _ _ (by decide),
      scaleBlock_skip2 "year" "month" _ _ _ _ (by decide),
      scaleBlock_mid "month" 20 _ _ w h1 h2,
      scaleBlock_skip2 "date" "month" _ _ _ _ (by decide),
      scaleBlock_skip2 "hour" "month" _ _ _ _ (by decide),
      scaleBlock_skip2 "minute" "month" _ _ _ _ (by decide),
      scaleBlock_skip2 "second" "month" _ _ _ _ (by decide),
      msBlock_skip2 "month" _ (by decide)]

theorem ms_month_hi (w δ : ℚ) (h1 : 200 < w) :
    updateScaleTypeByWidth "month" w δ = ("date", 10) := by
  simp only [updateScaleTypeByWidth]
  rw [scaleBlock_skip2 "millennium" "month" _ _ _ _ (by decide),
      scaleBlock_skip2 "century" "month" _ _ _ _ (by decide),
      scaleBlock_skip2 "decade" "month" _ _ _ _ (by decide),
      scaleBlock_skip2 "year" "month" _ _ _ _ (by decide),
      scaleBlock_hi "month" 20 _ _ w h1,
      scaleBlock_mid "date" 10 _ _ 10 (by norm_num) (by norm_num),
      scaleBlock_skip2 "hour" "date" _ _ _ _ (by decide),
      scaleBlock_skip2 "minute" "date" _ _ _ _ (by decide),
      scaleBlock_skip2 "second" "date" _ _ _ _ (by decide),
      msBlock_skip2 "date" _ (by decide)]

theorem ms_month_lo (w δ : ℚ) (h1 : w < 20) :
    updateScaleTypeByWidth "month" w δ = ("year", 200 - δ) := by
  simp only [updateScaleTypeByWidth]
  rw [scaleBlock_skip2 "millennium" "month" _ _ _ _ (by decide),
      scaleBlock_skip2 "century" "month" _ _ _ _ (by decide),
      scaleBlock_skip2 "decade" "month" _ _ _ _ (by decide),
      scaleBlock_skip2 "year" "month" _ _ _ _ (by decide),
      scaleBlock_lo "month" 20 _ _ w h1 (by linarith),
      scaleBlock_skip2 "date" "year" _ _ _ _ (by decide),
      scaleBlock_skip2 "hour" "year" _ _ _ _ (by decide),
      scaleBlock_skip2 "minute" "year" _ _ _ _ (by decide),
      scaleBlock_skip2 "second" "year" _ _ _ _ (by decide),
      msBlock_skip2 "year" _ (by decide)]

theorem ms_date_mid (w δ : ℚ) (h1 : 10 ≤ w) (h2 : w ≤ 200) :
    updateScaleTypeByWidth "date" w δ = ("date", w) := by
  simp only [updateScaleTypeByWidth]
  rw [scaleBlock_skip2 "millennium" "date" _ _ _ _ (by decide),
      scaleBlock_skip2 "century" "date" _ _ _ _ (by decide),
      scaleBlock_skip2 "decade" "date" _ _ _ _ (by decide),
      scaleBlock_skip2 "year" "date" _ _ _ _ (by decide),
      scaleBlock_skip2 "month" "date" _ _ _ _ (by decide),
      scaleBlock_mid "date" 10 _ _ w h1 h2,
      scaleBlock_skip2 "hour" "date" _ _ _ _ (by decide),
      scaleBlock_skip2 "minute" "date" _ _ _ _ (by decide),
      scaleBlock_skip2 "second" "date" _ _ _ _ (by decide),
      msBlock_skip2 "date" _ (by decide)]

theorem ms_date_hi (w δ : ℚ) (h1 : 200 < w) :
    updateScaleTypeByWidth "date" w δ = ("hour", 10) := by
  simp only [updateScaleTypeByWidth]
  rw [scaleBlock_skip2 "millennium" "date" _ _ _ _ (by decide),
      scaleBlock_skip2 "century" "date" _ _ _ _ (by decide),
      scaleBlock_skip2 "decade" "date" _ _ _ _ (by decide),
      scaleBlock_skip2 "year" "date" _ _ _ _ (by decide),
      scaleBlock_skip2 "month" "date" _ _ _ _ (by decide),
      scaleBlock_hi "date" 10 _ _ w h1,
      scaleBlock_mid "hour" 10 _ _ 10 (by norm_num) (by norm_num),
      scaleBlock_skip2 "minute" "hour" _ _ _ _ (by decide),
      scaleBlock_skip2 "second" "hour" _ _ _ _ (by decide),
      msBlock_skip2 "hour" _ (by decide)]

theorem ms_date_lo (w δ : ℚ) (h1 : w < 10) :
    updateScaleTypeByWidth "date" w δ = ("month", 200) := by
  simp only [updateScaleTypeByWidth]
  rw [scaleBlock_skip2 "millennium" "date" _ _ _ _ (by decide),
      scaleBlock_skip2 "century" "date" _ _ _ _ (by decide),
      scaleBlock_skip2 "decade" "date" _ _ _ _ (by decide),
      scaleBlock_skip2 "year" "date" _ _ _ _ (by decide),
      scaleBlock_skip2 "month" "date" _ _ _ _ (by decide),
      scaleBlock_lo "date" 10 _ _ w h1 (by linarith),
      scaleBlock_skip2 "hour" "month" _ _ _ _ (by decide),
      scaleBlock_skip2 "minute" "month" _ _ _ _ (by decide),
      scaleBlock_skip2 "second" "month" _ _ _ _ (by decide),
      msBlock_skip2 "month" _ (by decide)]

theorem ms_hour_mid (w δ : ℚ) (h1 : 10 ≤ w) (h2 : w ≤ 200) :
    updateScaleTypeByWidth "hour" w δ = ("hour", w) := by
  simp only [updateScaleTypeByWidth]
  rw [scaleBlock_skip2 "millennium" "hour" _ _ _ _ (by decide),
      scaleBlock_skip2 "century" "hour" _ _ _ _ (by decide),
      scaleBlock_skip2 "decade" "hour" _ _ _ _ (by decide),
      scaleBlock_skip2 "year" "hour" _ _ _ _ (by decide),
      scaleBlock_skip2 "month" "hour" _ _ _ _ (by decide),
      scaleBlock_skip2 "date" "hour" _ _ _ _ (by decide),
      scaleBlock_mid "hour" 10 _ _ w h1 h2,
      scaleBlock_skip2 "minute" "hour" _ _ _ _ (by decide),
      scaleBlock_skip2 "second" "hour" _ _ _ _ (by decide),
      msBlock_skip2 "hour" _ (by decide)]

theorem ms_hour_hi (w δ : ℚ) (h1 : 200 < w) :
    updateScaleTypeByWidth "hour" w δ = ("minute", 5) := by
  simp only [updateScaleTypeByWidth]
  rw [scaleBlock_skip2 "millennium" "hour" _ _ _ _ (by decide),
      scaleBlock_skip2 "century" "hour" _ _ _ _ (by decide),
      scaleBlock_skip2 "decade" "hour" _ _ _ _ (by decide),
      scaleBlock_skip2 "year" "hour" _ _ _ _ (by decide),
      scaleBlock_skip2 "month" "hour" _ _ _ _ (by decide),
      scaleBlock_skip2 "date" "hour" _ _ _ _ (by decide),
      scaleBlock_hi "hour" 10 _ _ w h1,
      scaleBlock_mid "minute" 5 _ _ 5 (by norm_num) (by norm_num),
      scaleBlock_skip2 "second" "minute" _ _ _ _ (by decide),
      msBlock_skip2 "minute" _ (by decide)]

theorem ms_hour_lo (w δ : ℚ) (h1 : w < 10) :
    updateScaleTypeByWidth "hour" w δ = ("date", 200) := by
  simp only [updateScaleTypeByWidth]
  rw [scaleBlock_skip2 "millennium" "hour" _ _ _ _ (by decide),
      scaleBlock_skip2 "century" "hour" _ _ _ _ (by decide),
      scaleBlock_skip2 "decade" "hour" _ _ _ _ (by decide),
      scaleBlock_skip2 "year" "hour" _ _ _ _ (by decide),
      scaleBlock_skip2 "month" "hour" _ _ _ _ (by decide),
      scaleBlock_skip2 "date" "hour" _ _ _ _ (by decide),
      scaleBlock_lo "hour" 10 _ _ w h1 (by linarith),
      scaleBlock_skip2 "minute" "date" _ _ _ _ (by decide),
      scaleBlock_skip2 "second" "date" _ _ _ _ (by decide),
      msBlock_skip2 "date" _ (by decide)]

theorem ms_minute_mid (w δ : ℚ) (h1 : 5 ≤ w) (h2 : w ≤ 200) :
    updateScaleTypeByWidth "minute" w δ = ("minute", w) := by
  simp only [updateScaleTypeByWidth]
  rw [scaleBlock_skip2 "millennium" "minute" _ _ _ _ (by decide),
      scaleBlock_skip2 "century" "minute" _ _ _ _ (by decide),
      scaleBlock_skip2 "decade" "minute" _ _ _ _ (by decide),
      scaleBlock_skip2 "year" "minute" _ _ _ _ (by decide),
      scaleBlock_skip2 "month" "minute" _ _ _ _ (by decide),
      scaleBlock_skip2 "date" "minute" _ _ _ _ (by decide),
      scaleBlock_skip2 "hour" "minute" _ _ _ _ (by decide),
      scaleBlock_mid "minute" 5 _ _ w h1 h2,
      scaleBlock_skip2 "second" "minute" _ _ _ _ (by decide),
      msBlock_skip2 "minute" _ (by decide)]

theorem ms_minute_hi (w δ : ℚ) (h1 : 200 < w) :
    updateScaleTypeByWidth "minute" w δ = ("second", 5) := by
  simp only [updateScaleTypeByWidth]
  rw [scaleBlock_skip2 "millennium" "minute" _ _ _ _ (by decide),
      scaleBlock_skip2 "century" "minute" _ _ _ _ (by decide),
      scaleBlock_skip2 "decade" "minute" _ _ _ _ (by decide),
      scaleBlock_skip2 "year" "minute" _ _ _ _ (by decide),
      scaleBlock_skip2 "month" "minute" _ _ _ _ (by decide),
      scaleBlock_skip2 "date" "minute" _ _ _ _ (by decide),
      scaleBlock_skip2 "hour" "minute" _ _ _ _ (by decide),
      scaleBlock_hi "minute" 5 _ _ w h1,
      scaleBlock_mid "second" 5 _ _ 5 (by norm_num) (by norm_num),
      msBlock_skip2 "second" _ (by decide)]

theorem ms_minute_lo (w δ : ℚ) (h1 : w < 5) :
    updateScaleTypeByWidth "minute" w δ = ("hour", 200) := by
  simp only [updateScaleTypeByWidth]
  rw [scaleBlock_skip2 "millennium" "minute" _ _ _ _ (by decide),
      scaleBlock_skip2 "century" "minute" _ _ _ _ (by decide),
      scaleBlock_skip2 "decade" "minute" _ _ _ _ (by decide),
      scaleBlock_skip2 "year" "minute" _ _ _ _ (by decide),
      scaleBlock_skip2 "month" "minute" _ _ _ _ (by decide),
      scaleBlock_skip2 "date" "minute" _ _ _ _ (by decide),
      scaleBlock_skip2 "hour" "minute" _ _ _ _ (by decide),
      scaleBlock_lo "minute" 5 _ _ w h1 (by linarith),
      scaleBlock_skip2 "second" "hour" _ _ _ _ (by decide),
      msBlock_skip2 "hour" _ (by decide)]

theorem ms_second_mid (w δ : ℚ) (h1 : 5 ≤ w) (h2 : w ≤ 200) :
    updateScaleTypeByWidth "second" w δ = ("second", w) := by
  simp only [updateScaleTypeByWidth]
  rw [scaleBlock_skip2 "millennium" "second" _ _ _ _ (by decide),
      scaleBlock_skip2 "century" "second" _ _ _ _ (by decide),
      scaleBlock_skip2 "decade" "second" _ _ _ _ (by decide),
      scaleBlock_skip2 "year" "second" _ _ _ _ (by decide),
      scaleBlock_skip2 "month" "second" _ _ _ _ (by decide),
      scaleBlock_skip2 "date" "second" _ _ _ _ (by decide),
      scaleBlock_skip2 "hour" "second" _ _ _ _ (by decide),
      scaleBlock_skip2 "minute" "second" _ _ _ _ (by decide),
      scaleBlock_mid "second" 5 _ _ w h1 h2,
      msBlock_skip2 "second" _ (by decide)]

theorem ms_second_hi (w δ : ℚ) (h1 : 200 < w) :
    updateScaleTypeByWidth "second" w δ = ("second", 200) := by
  simp only [updateScaleTypeByWidth]
  rw [scaleBlock_skip2 "millennium" "second" _ _ _ _ (by decide),
      scaleBlock_skip2 "century" "second" _ _ _ _ (by decide),
      scaleBlock_skip2 "decade" "second" _ _ _ _ (by decide),
      scaleBlock_skip2 "year" "second" _ _ _ _ (by decide),
      scaleBlock_skip2 "month" "second" _ _ _ _ (by decide),
      scaleBlock_skip2 "date" "second" _ _ _ _ (by decide),
      scaleBlock_skip2 "hour" "second" _ _ _ _ (by decide),
      scaleBlock_skip2 "minute" "second" _ _ _ _ (by decide),
      scaleBlock_hi "second" 5 _ _ w h1,
      msBlock_ms _]

theorem ms_second_lo (w δ : ℚ) (h1 : w < 5) :
    updateScaleTypeByWidth "second" w δ = ("minute", 200) := by
  simp only [updateScaleTypeByWidth]
  rw [scaleBlock_skip2 "millennium" "second" _ _ _ _ (by decide),
      scaleBlock_skip2 "century" "second" _ _ _ _ (by decide),
      scaleBlock_skip2 "decade" "second" _ _ _ _ (by decide),
      scaleBlock_skip2 "year" "second" _ _ _ _ (by decide),
      scaleBlock_skip2 "month" "second" _ _ _ _ (by decide),
      scaleBlock_skip2 "date" "second" _ _ _ _ (by decide),
      scaleBlock_skip2 "hour" "second" _ _ _ _ (by decide),
      scaleBlock_skip2 "minute" "second" _ _ _ _ (by decide),
      scaleBlock_lo "second" 5 _ _ w h1 (by linarith),
      msBlock_skip2 "minute" _ (by decide)]

theorem never_millisecond (g : String) (w δ : ℚ) :
    (updateScaleTypeByWidth g w δ).1 ≠ "millisecond" := by
  simp only [updateScaleTypeByWidth]
  exact msBlock_ne_ms _

theorem reach_above (g g' : String) (δ lo : ℚ) (hδ : 0 < δ)
    (hstay : ∀ w : ℚ, lo ≤ w → w + δ ≤ 200 → rescaleScale (g, w) δ = (g, w + δ))
    (hgo : ∀ w : ℚ, lo ≤ w → 200 < w + δ → (rescaleScale (g, w) δ).1 = g') :
    ∀ w : ℚ, lo ≤ w → w ≤ 200 →
      ∃ n : ℕ, ((fun s => rescaleScale s δ)^[n] (g, w)).1 = g' := by
  have main : ∀ N : ℕ, ∀ w : ℚ, lo ≤ w → w ≤ 200 → (⌈(200 - w) / δ⌉).toNat ≤ N →
      ∃ n : ℕ, ((fun s => rescaleScale s δ)^[n] (g, w)).1 = g' := by
    intro N
    induction N with
    | zero =>
      intro w hlo _ hN
      refine ⟨1, ?_⟩
      rw [Function.iterate_one]
      apply hgo w hlo
      have h0 : (⌈(200 - w) / δ⌉ : ℤ) ≤ 0 := by omega
      have h1 : (200 - w) / δ ≤ 0 := by
        calc (200 - w) / δ ≤ (⌈(200 - w) / δ⌉ : ℚ) := Int.le_ceil _
        _ ≤ 0 := by exact_mod_cast h0
      have h2 : 200 - w ≤ 0 := by
        by_contra hc
        push_neg at hc
        have := div_pos hc hδ
        linarith
      linarith
    | succ N ih =>
      intro w hlo hhi hN
      by_cases hcase : 200 < w + δ
      · exact ⟨1, by rw [Function.iterate_one]; exact hgo w hlo hcase⟩
      · push_neg at hcase
        have hmeas : (⌈(200 - (w + δ)) / δ⌉).toNat ≤ N := by
          have he : (200 - (w + δ)) / δ = (200 - w) / δ - 1 := by
            field_simp
            ring
          have hge : (1 : ℚ) ≤ (200 - w) / δ := by
            rw [le_div_iff hδ]
            linarith
          have hc1 : (1 : ℤ) ≤ ⌈(200 - w) / δ⌉ := by
            have ha := Int.le_ceil ((200 - w) / δ)
            have hb : (1 : ℚ) ≤ (⌈(200 - w) / δ⌉ : ℚ) := le_trans hge ha
            exact_mod_cast hb
          rw [he, Int.ceil_sub_one]
          omega
        obtain ⟨n, hn⟩ := ih (w + δ) (by linarith) hcase hmeas
        refine ⟨n + 1, ?_⟩
        rw [Function.iterate_succ_apply]
        simpa [hstay w hlo hcase] using hn
  intro w hlo hhi
  exact main (⌈(200 - w) / δ⌉).toNat w hlo hhi le_rfl

theorem reach_below (g g' : String) (δ lo : ℚ) (hδ : 0 < δ)
    (hstay : ∀ w : ℚ, lo ≤ w - δ → w ≤ 200 → rescaleScale (g, w) (-δ) = (g, w - δ))
    (hgo : ∀ w : ℚ, w - δ < lo → w ≤ 200 → (rescaleScale (g, w) (-δ)).1 = g') :
    ∀ w : ℚ, lo ≤ w → w ≤ 200 →
      ∃ n : ℕ, ((fun s => rescaleScale s (-δ))^[n] (g, w)).1 = g' := by
  have main : ∀ N : ℕ, ∀ w : ℚ, lo ≤ w → w ≤ 200 → (⌈(w - lo) / δ⌉).toNat ≤ N →
      ∃ n : ℕ, ((fun s => rescaleScale s (-δ))^[n] (g, w)).1 = g' := by
    intro N
    induction N with
    | zero =>
      intro w hlo hhi hN
      refine ⟨1, ?_⟩
      rw [Function.iterate_one]
      apply hgo w _ hhi
      have h0 : (⌈(w - lo) / δ⌉ : ℤ) ≤ 0 := by omega
      have h1 : (w - lo) / δ ≤ 0 := by
        calc (w - lo) / δ ≤ (⌈(w - lo) / δ⌉ : ℚ) := Int.le_ceil _
        _ ≤ 0 := by exact_mod_cast h0
      have h2 : w - lo ≤ 0 := by
        by_contra hc
        push_neg at hc
        have := div_pos hc hδ
        linarith
      linarith
    | succ N ih =>
      intro w hlo hhi hN
      by_cases hcase : w - δ < lo
      · exact ⟨1, by rw [Function.iterate_one]; exact hgo w hcase hhi⟩
      · push_neg at hcase
        have hmeas : (⌈(w - δ - lo) / δ⌉).toNat ≤ N := by
          have he : (w - δ - lo) / δ = (w - lo) / δ - 1 := by
            field_simp
            ring
          have hge : (1 : ℚ) ≤ (w - lo) / δ := by
            rw [le_div_iff hδ]
            linarith
          have hc1 : (1 : ℤ) ≤ ⌈(w - lo) / δ⌉ := by
            have ha := Int.le_ceil ((w - lo) / δ)
            have hb : (1 : ℚ) ≤ (⌈(w - lo) / δ⌉ : ℚ) := le_trans hge ha
            exact_mod_cast hb
          rw [he, Int.ceil_sub_one]
          omega
        obtain ⟨n, hn⟩ := ih (w - δ) hcase (by linarith) hmeas
        refine ⟨n + 1, ?_⟩
        rw [Function.iterate_succ_apply]
        simpa [hstay w hcase hhi] using hn
  intro w hlo hhi
  exact main (⌈(w - lo) / δ⌉).toNat w hlo hhi le_rfl

/-- Zooming in from "second" clamps: every iterate keeps type "second" with
width in [5, 200] (the millisecond block immediately bounces any transition
back to second at width 200). -/
theorem secondFloor (n : ℕ) : ∀ w : ℚ, 5 ≤ w → w ≤ 200 →
    ((fun s => rescaleScale s 5)^[n] ("second", w)).1 = "second" ∧
    5 ≤ ((fun s => rescaleScale s 5)^[n] ("second", w)).2 ∧
    ((fun s => rescaleScale s 5)^[n] ("second", w)).2 ≤ 200 := by
  induction n with
  | zero =>
    intro w h1 h2
    simpa using ⟨h1, h2⟩
  | succ k ih =>
    intro w h1 h2
    simp only [Function.iterate_succ_apply]
    by_cases hc : w + 5 ≤ 200
    · have e : rescaleScale ("second", w) 5 = ("second", w + 5) := by
        simp only [rescaleScale]
        exact ms_second_mid (w + 5) 5 (by linarith) hc
      rw [e]
      exact ih (w + 5) (by linarith) hc
    · push_neg at hc
      have e : rescaleScale ("second", w) 5 = ("second", 200) := by
        simp only [rescaleScale]
        exact ms_second_hi (w + 5) 5 hc
      rw [e]
      exact ih 200 (by norm_num) le_rfl

/-- Zooming out from "millennium" clamps: every iterate keeps type
"millennium" with width in [20, 200] (a width under 20 is reset to 20
without a type change). -/
theorem millenniumFloor (n : ℕ) : ∀ w : ℚ, 20 ≤ w → w ≤ 200 →
    ((fun s => rescaleScale s (-5))^[n] ("millennium", w)).1 = "millennium" ∧
    20 ≤ ((fun s => rescaleScale s (-5))^[n] ("millennium", w)).2 ∧
    ((fun s => rescaleScale s (-5))^[n] ("millennium", w)).2 ≤ 200 := by
  induction n with
  | zero =>
    intro w h1 h2
    simpa using ⟨h1, h2⟩
  | succ k ih =>
    intro w h1 h2
    simp only [Function.iterate_succ_apply]
    by_cases hc : 20 ≤ w - 5
    · have e : rescaleScale ("millennium", w) (-5) = ("millennium", w - 5) := by
        simp only [rescaleScale]
        have e2 : w + -(5 : ℚ) = w - 5 := by ring
        rw [e2]
        exact ms_millennium_mid (w - 5) (-5) hc (by linarith)
      rw [e]
      exact ih (w - 5) hc (by linarith)
    · push_neg at hc
      have e : rescaleScale ("millennium", w) (-5) = ("millennium", 20) := by
        simp only [rescaleScale]
        have e2 : w + -(5 : ℚ) = w - 5 := by ring
        rw [e2]
        exact ms_millennium_lo (w - 5) (-5) (by linarith)
      rw [e]
      exact ih 20 le_rfl (by norm_num)

/-- The lower width bound of each granularity's band, as the ten blocks of
updateScaleTypeByWidth check it (20 down to "month", 10 for "date" and
"hour", 5 for "minute" and "second"). -/
def granLowerBound (g : String) : ℚ :=
  if g = "minute" then 5 else if g = "second" then 5
  else if g = "date" then 10 else if g = "hour" then 10 else 20

/-- C2 (counterexample): the spec calls millisecond "the finest supported
unit" that repeated zooming in eventually reaches; in fact the millisecond
block bounces every transition into it straight back to second, so starting
from second, at any zoom step (shown for step 5), the controller never
yields a millisecond state. -/
theorem C2_counterexample :
    ¬ ∃ n : ℕ, ((fun s => rescaleScale s 5)^[n] ("second", (100 : ℚ))).1 =
      "millisecond" := by
  rintro ⟨n, hn⟩
  rcases n with _ | k
  · simp at hn
  · simp only [Function.iterate_succ_apply'] at hn
    simp only [rescaleScale] at hn
    exact never_millisecond _ _ _ hn

/-- C2 (amended): with zoom step magnitude 5 (a representative small
delta; the shipped app uses 10, with the same behavior), from every granularity
with width in its band, repeated rescale calls eventually transition one
level finer (positive delta) or one level coarser (negative delta), except
that second is the effective finest floor (zooming in clamps at second
forever, a millisecond state is never produced) and millennium is the
coarsest (zooming out clamps at millennium forever). -/
theorem C2_scale_stepwise :
    (∀ w : ℚ, 20 ≤ w → w ≤ 200 →
      ∃ n : ℕ, ((fun s => rescaleScale s 5)^[n] ("millennium", w)).1 = "century") ∧
    (∀ w : ℚ, 20 ≤ w → w ≤ 200 →
      ∃ n : ℕ, ((fun s => rescaleScale s 5)^[n] ("century", w)).1 = "decade") ∧
    (∀ w : ℚ, 20 ≤ w → w ≤ 200 →
      ∃ n : ℕ, ((fun s => rescaleScale s 5)^[n] ("decade", w)).1 = "year") ∧
    (∀ w : ℚ, 20 ≤ w → w ≤ 200 →
      ∃ n : ℕ, ((fun s => rescaleScale s 5)^[n] ("year", w)).1 = "month") ∧
    (∀ w : ℚ, 20 ≤ w → w ≤ 200 →
      ∃ n : ℕ, ((fun s => rescaleScale s 5)^[n] ("month", w)).1 = "date") ∧
    (∀ w : ℚ, 10 ≤ w → w ≤ 200 →
      ∃ n : ℕ, ((fun s => rescaleScale s 5)^[n] ("date", w)).1 = "hour") ∧
    (∀ w : ℚ, 10 ≤ w → w ≤ 200 →
      ∃ n : ℕ, ((fun s => rescaleScale s 5)^[n] ("hour", w)).1 = "minute") ∧
    (∀ w : ℚ, 5 ≤ w → w ≤ 200 →
      ∃ n : ℕ, ((fun s => rescaleScale s 5)^[n] ("minute", w)).1 = "second") ∧
    (∀ w : ℚ, 5 ≤ w → w ≤ 200 → ∀ n : ℕ,
      ((fun s => rescaleScale s 5)^[n] ("second", w)).1 = "second") ∧
    (∀ w : ℚ, 20 ≤ w → w ≤ 200 →
      ∃ n : ℕ, ((fun s => rescaleScale s (-5))^[n] ("century", w)).1 = "millennium") ∧
    (∀ w : ℚ, 20 ≤ w → w ≤ 200 →
      ∃ n : ℕ, ((fun s => rescaleScale s (-5))^[n] ("decade", w)).1 = "century") ∧
    (∀ w : ℚ, 20 ≤ w → w ≤ 200 →
      ∃ n : ℕ, ((fun s => rescaleScale s (-5))^[n] ("year", w)).1 = "decade") ∧
    (∀ w : ℚ, 20 ≤ w → w ≤ 200 →
      ∃ n : ℕ, ((fun s => rescaleScale s (-5))^[n] ("month", w)).1 = "year") ∧
    (∀ w : ℚ, 10 ≤ w → w ≤ 200 →
      ∃ n : ℕ, ((fun s => rescaleScale s (-5))^[n] ("date", w)).1 = "month") ∧
    (∀ w : ℚ, 10 ≤ w → w ≤ 200 →
      ∃ n : ℕ, ((fun s => rescaleScale s (-5))^[n] ("hour", w)).1 = "date") ∧
    (∀ w : ℚ, 5 ≤ w → w ≤ 200 →
      ∃ n : ℕ, ((fun s => rescaleScale s (-5))^[n] ("minute", w)).1 = "hour") ∧
    (∀ w : ℚ, 5 ≤ w → w ≤ 200 →
      ∃ n : ℕ, ((fun s => rescaleScale s (-5))^[n] ("second", w)).1 = "minute") ∧
    (∀ w : ℚ, 20 ≤ w → w ≤ 200 → ∀ n : ℕ,
      ((fun s => rescaleScale s (-5))^[n] ("millennium", w)).1 = "millennium") := by
  refine ⟨?_, ?_, ?_, ?_, ?_, ?_, ?_, ?_, ?_, ?_, ?_, ?_, ?_, ?_, ?_, ?_, ?_, ?_⟩
  · apply reach_above "millennium" "century" 5 20 (by norm_num)
    · intro w h1 h2
      simp only [rescaleScale]
      exact ms_millennium_mid (w + 5) 5 (by linarith) h2
    · intro w h1 h2
      simp only [rescaleScale]
      rw [ms_millennium_hi (w + 5) 5 h2 (by norm_num) (by norm_num)]
  · apply reach_above "century" "decade" 5 20 (by norm_num)
    · intro w h1 h2
      simp only [rescaleScale]
      exact ms_century_mid (w + 5) 5 (by linarith) h2
    · intro w h1 h2
      simp only [rescaleScale]
      rw [ms_century_hi (w + 5) 5 h2 (by norm_num) (by norm_num)]
  · apply reach_above "decade" "year" 5 20 (by norm_num)
    · intro w h1 h2
      simp only [rescaleScale]
      exact ms_decade_mid (w + 5) 5 (by linarith) h2
    · intro w h1 h2
      simp only [rescaleScale]
      rw [ms_decade_hi (w + 5) 5 h2 (by norm_num) (by norm_num)]
  · apply reach_above "year" "month" 5 20 (by norm_num)
    · intro w h1 h2
      simp only [rescaleScale]
      exact ms_year_mid (w + 5) 5 (by linarith) h2
    · intro w h1 h2
      simp only [rescaleScale]
      rw [ms_year_hi (w + 5) 5 h2 (by norm_num) (by norm_num)]
  · apply reach_above "month" "date" 5 20 (by norm_num)
    · intro w h1 h2
      simp only [rescaleScale]
      exact ms_month_mid (w + 5) 5 (by linarith) h2
    · intro w h1 h2
      simp only [rescaleScale]
      rw [ms_month_hi (w + 5) 5 h2]
  · apply reach_above "date" "hour" 5 10 (by norm_num)
    · intro w h1 h2
      simp only [rescaleScale]
      exact ms_date_mid (w + 5) 5 (by linarith) h2
    · intro w h1 h2
      simp only [rescaleScale]
      rw [ms_date_hi (w + 5) 5 h2]
  · apply reach_above "hour" "minute" 5 10 (by norm_num)
    · intro w h1 h2
      simp only [rescaleScale]
      exact ms_hour_mid (w + 5) 5 (by linarith) h2
    · intro w h1 h2
      simp only [rescaleScale]
      rw [ms_hour_hi (w + 5) 5 h2]
  · apply reach_above "minute" "second" 5 5 (by norm_num)
    · intro w h1 h2
      simp only [rescaleScale]
      exact ms_minute_mid (w + 5) 5 (by linarith) h2
    · intro w h1 h2
      simp only [rescaleScale]
      rw [ms_minute_hi (w + 5) 5 h2]
  · intro w h1 h2 n
    exact (secondFloor n w h1 h2).1
  · apply reach_below "century" "millennium" 5 20 (by norm_num)
    · intro w h1 h2
      simp only [rescaleScale]
      have e2 : w + -(5 : ℚ) = w - 5 := by ring
      rw [e2, ms_century_mid (w - 5) (-5) h1 (by linarith)]
    · intro w h1 h2
      simp only [rescaleScale]
      have e2 : w + -(5 : ℚ) = w - 5 := by ring
      rw [e2, ms_century_lo (w - 5) (-5) h1]
  · apply reach_below "decade" "century" 5 20 (by norm_num)
    · intro w h1 h2
      simp only [rescaleScale]
      have e2 : w + -(5 : ℚ) = w - 5 := by ring
      rw [e2, ms_decade_mid (w - 5) (-5) h1 (by linarith)]
    · intro w h1 h2
      simp only [rescaleScale]
      have e2 : w + -(5 : ℚ) = w - 5 := by ring
      rw [e2, ms_decade_lo (w - 5) (-5) h1]
  · apply reach_below "year" "decade" 5 20 (by norm_num)
    · intro w h1 h2
      simp only [rescaleScale]
      have e2 : w + -(5 : ℚ) = w - 5 := by ring
      rw [e2, ms_year_mid (w - 5) (-5) h1 (by linarith)]
    · intro w h1 h2
      simp only [rescaleScale]
      have e2 : w + -(5 : ℚ) = w - 5 := by ring
      rw [e2, ms_year_lo (w - 5) (-5) h1]
  · apply reach_below "month" "year" 5 20 (by norm_num)
    · intro w h1 h2
      simp only [rescaleScale]
      have e2 : w + -(5 : ℚ) = w - 5 := by ring
      rw [e2, ms_month_mid (w - 5) (-5) h1 (by linarith)]
    · intro w h1 h2
      simp only [rescaleScale]
      have e2 : w + -(5 : ℚ) = w - 5 := by ring
      rw [e2, ms_month_lo (w - 5) (-5) h1]
  · apply reach_below "date" "month" 5 10 (by norm_num)
    · intro w h1 h2
      simp only [rescaleScale]
      have e2 : w + -(5 : ℚ) = w - 5 := by ring
      rw [e2, ms_date_mid (w - 5) (-5) h1 (by linarith)]
    · intro w h1 h2
      simp only [rescaleScale]
      have e2 : w + -(5 : ℚ) = w - 5 := by ring
      rw [e2, ms_date_lo (w - 5) (-5) h1]
  · apply reach_below "hour" "date" 5 10 (by norm_num)
    · intro w h1 h2
      simp only [rescaleScale]
      have e2 : w + -(5 : ℚ) = w - 5 := by ring
      rw [e2, ms_hour_mid (w - 5) (-5) h1 (by linarith)]
    · intro w h1 h2
      simp only [rescaleScale]
      have e2 : w + -(5 : ℚ) = w - 5 := by ring
      rw [e2, ms_hour_lo (w - 5) (-5) h1]
  · apply reach_below "minute" "hour" 5 5 (by norm_num)
    · intro w h1 h2
      simp only [rescaleScale]
      have e2 : w + -(5 : ℚ) = w - 5 := by ring
      rw [e2, ms_minute_mid (w - 5) (-5) h1 (by linarith)]
    · intro w h1 h2
      simp only [rescaleScale]
      have e2 : w + -(5 : ℚ) = w - 5 := by ring
      rw [e2, ms_minute_lo (w - 5) (-5) h1]
  · apply reach_below "second" "minute" 5 5 (by norm_num)
    · intro w h1 h2
      simp only [rescaleScale]
      have e2 : w + -(5 : ℚ) = w - 5 := by ring
      rw [e2, ms_second_mid (w - 5) (-5) h1 (by linarith)]
    · intro w h1 h2
      simp only [rescaleScale]
      have e2 : w + -(5 : ℚ) = w - 5 := by ring
      rw [e2, ms_second_lo (w - 5) (-5) h1]
  · intro w h1 h2 n
    exact (millenniumFloor n w h1 h2).1

/-- C5 (counterexample): one zoom-out step from ("century", 21) with
delta -5 lands on ("millennium", 205): the width handed to the new granularity
exceeds the claimed valid range, whose upper bound is 200. -/
theorem C5_counterexample :
    rescaleScale ("century", (21 : ℚ)) (-5) = ("millennium", 205) ∧
    ¬ (rescaleScale ("century", (21 : ℚ)) (-5)).2 < 200 := by
  have e : rescaleScale ("century", (21 : ℚ)) (-5) = ("millennium", 200 - (-5)) := by
    simp only [rescaleScale]
    have e2 : (21 : ℚ) + -5 = 16 := by norm_num
    rw [e2]
    exact ms_century_lo 16 (-5) (by norm_num)
  rw [e]
  norm_num

/-- C5 (amended): with zoom step delta ±5 (representative of the app's
small steps), one rescale step from a
state whose width is in its granularity band lands on a valid granularity,
never millisecond, with width at least the new granularity's lower bound and
at most 205 = 200 + |delta| (zoom-out transitions overshoot the 200 upper
bound by the delta, so the claimed right-open range [lo, 200) does not
hold). -/
theorem C5_width_band (g : String) (w δ : ℚ) (hg : g ∈ validScaleTypes)
    (hms : g ≠ "millisecond") (hw1 : granLowerBound g ≤ w) (hw2 : w ≤ 200)
    (hδ : δ = 5 ∨ δ = -5) :
    (rescaleScale (g, w) δ).1 ∈ validScaleTypes ∧
    (rescaleScale (g, w) δ).1 ≠ "millisecond" ∧
    granLowerBound ((rescaleScale (g, w) δ).1) ≤ (rescaleScale (g, w) δ).2 ∧
    (rescaleScale (g, w) δ).2 ≤ 205 := by
  simp only [validScaleTypes, List.mem_cons, List.not_mem_nil, or_false] at hg
  rcases hg with rfl | rfl | rfl | rfl | rfl | rfl | rfl | rfl | rfl | rfl
  · have hw1b : (20 : ℚ) ≤ w := hw1
    rcases hδ with rfl | rfl
    · by_cases h : w + 5 ≤ 200
      · have e : rescaleScale ("millennium", w) 5 = ("millennium", w + 5) := by
          simp only [rescaleScale]
          exact ms_millennium_mid (w + 5) 5 (by linarith) h
        rw [e]
        refine ⟨by simp [validScaleTypes], by simp, ?_, by show w + 5 ≤ (205 : ℚ); linarith⟩
        show (20 : ℚ) ≤ w + 5
        linarith
      · push_neg at h
        have e : rescaleScale ("millennium", w) 5 = ("century", 20 + (5 : ℚ)) := by
          simp only [rescaleScale]
          exact ms_millennium_hi (w + 5) 5 h (by norm_num) (by norm_num)
        rw [e]
        refine ⟨by simp [validScaleTypes], by simp, ?_, by norm_num⟩
        simp [granLowerBound] <;> norm_num
    · by_cases h : (20 : ℚ) ≤ w - 5
      · have e : rescaleScale ("millennium", w) (-5) = ("millennium", w - 5) := by
          simp only [rescaleScale]
          have e2 : w + -(5 : ℚ) = w - 5 := by ring
          rw [e2]
          exact ms_millennium_mid (w - 5) (-5) h (by linarith)
        rw [e]
        refine ⟨by simp [validScaleTypes], by simp, ?_, by show w - 5 ≤ (205 : ℚ); linarith⟩
        show (20 : ℚ) ≤ w - 5
        linarith
      · push_neg at h
        have e : rescaleScale ("millennium", w) (-5) = ("millennium", 20) := by
          simp only [rescaleScale]
          have e2 : w + -(5 : ℚ) = w - 5 := by ring
          rw [e2]
          exact ms_millennium_lo (w - 5) (-5) (by linarith)
        rw [e]
        refine ⟨by simp [validScaleTypes], by simp, ?_, by norm_num⟩
        simp [granLowerBound] <;> norm_num
  · have hw1b : (20 : ℚ) ≤ w := hw1
    rcases hδ with rfl | rfl
    · by_cases h : w + 5 ≤ 200
      · have e : rescaleScale ("century", w) 5 = ("century", w + 5) := by
          simp only [rescaleScale]
          exact ms_century_mid (w + 5) 5 (by linarith) h
        rw [e]
        refine ⟨by simp [validScaleTypes], by simp, ?_, by show w + 5 ≤ (205 : ℚ); linarith⟩
        show (20 : ℚ) ≤ w + 5
        linarith
      · push_neg at h
        have e : rescaleScale ("century", w) 5 = ("decade", 20 + (5 : ℚ)) := by
          simp only [rescaleScale]
          exact ms_century_hi (w + 5) 5 h (by norm_num) (by norm_num)
        rw [e]
        refine ⟨by simp [validScaleTypes], by simp, ?_, by norm_num⟩
        simp [granLowerBound] <;> norm_num
    · by_cases h : (20 : ℚ) ≤ w - 5
      · have e : rescaleScale ("century", w) (-5) = ("century", w - 5) := by
          simp only [rescaleScale]
          have e2 : w + -(5 : ℚ) = w - 5 := by ring
          rw [e2]
          exact ms_century_mid (w - 5) (-5) h (by linarith)
        rw [e]
        refine ⟨by simp [validScaleTypes], by simp, ?_, by show w - 5 ≤ (205 : ℚ); linarith⟩
        show (20 : ℚ) ≤ w - 5
        linarith
      · push_neg at h
        have e : rescaleScale ("century", w) (-5) = ("millennium", 200 - (-5 : ℚ)) := by
          simp only [rescaleScale]
          have e2 : w + -(5 : ℚ) = w - 5 := by ring
          rw [e2]
          exact ms_century_lo (w - 5) (-5) (by linarith)
        rw [e]
        refine ⟨by simp [validScaleTypes], by simp, ?_, by norm_num⟩
        simp [granLowerBound] <;> norm_num
  · have hw1b : (20 : ℚ) ≤ w := hw1
    rcases hδ with rfl | rfl
    · by_cases h : w + 5 ≤ 200
      · have e : rescaleScale ("decade", w) 5 = ("decade", w + 5) := by
          simp only [rescaleScale]
          exact ms_decade_mid (w + 5) 5 (by linarith) h
        rw [e]
        refine ⟨by simp [validScaleTypes], by simp, ?_, by show w + 5 ≤ (205 : ℚ); linarith⟩
        show (20 : ℚ) ≤ w + 5
        linarith
      · push_neg at h
        have e : rescaleScale ("decade", w) 5 = ("year", 20 + (5 : ℚ)) := by
          simp only [rescaleScale]
          exact ms_decade_hi (w + 5) 5 h (by norm_num) (by norm_num)
        rw [e]
        refine ⟨by simp [validScaleTypes], by simp, ?_, by norm_num⟩
        simp [granLowerBound] <;> norm_num
    · by_cases h : (20 : ℚ) ≤ w - 5
      · have e : rescaleScale ("decade", w) (-5) = ("decade", w - 5) := by
          simp only [rescaleScale]
          have e2 : w + -(5 : ℚ) = w - 5 := by ring
          rw [e2]
          exact ms_decade_mid (w - 5) (-5) h (by linarith)
        rw [e]
        refine ⟨by simp [validScaleTypes], by simp, ?_, by show w - 5 ≤ (205 : ℚ); linarith⟩
        show (20 : ℚ) ≤ w - 5
        linarith
      · push_neg at h
        have e : rescaleScale ("decade", w) (-5) = ("century", 200 - (-5 : ℚ)) := by
          simp only [rescaleScale]
          have e2 : w + -(5 : ℚ) = w - 5 := by ring
          rw [e2]
          exact ms_decade_lo (w - 5) (-5) (by linarith)
        rw [e]
        refine ⟨by simp [validScaleTypes], by simp, ?_, by norm_num⟩
        simp [granLowerBound] <;> norm_num
  · have hw1b : (20 : ℚ) ≤ w := hw1
    rcases hδ with rfl | rfl
    · by_cases h : w + 5 ≤ 200
      · have e : rescaleScale ("year", w) 5 = ("year", w + 5) := by
          simp only [rescaleScale]
          exact ms_year_mid (w + 5) 5 (by linarith) h
        rw [e]
        refine ⟨by simp [validScaleTypes], by simp, ?_, by show w + 5 ≤ (205 : ℚ); linarith⟩
        show (20 : ℚ) ≤ w + 5
        linarith
      · push_neg at h
        have e : rescaleScale ("year", w) 5 = ("month", 200 / 12 + (5 : ℚ)) := by
          simp only [rescaleScale]
          exact ms_year_hi (w + 5) 5 h (by norm_num) (by norm_num)
        rw [e]
        refine ⟨by simp [validScaleTypes], by simp, ?_, by norm_num⟩
        simp [granLowerBound] <;> norm_num
    · by_cases h : (20 : ℚ) ≤ w - 5
      · have e : rescaleScale ("year", w) (-5) = ("year", w - 5) := by
          simp only [rescaleScale]
          have e2 : w + -(5 : ℚ) = w - 5 := by ring
          rw [e2]
          exact ms_year_mid (w - 5) (-5) h (by linarith)
        rw [e]
        refine ⟨by simp [validScaleTypes], by simp, ?_, by show w - 5 ≤ (205 : ℚ); linarith⟩
        show (20 : ℚ) ≤ w - 5
        linarith
      · push_neg at h
        have e : rescaleScale ("year", w) (-5) = ("decade", 200 - (-5 : ℚ)) := by
          simp only [rescaleScale]
          have e2 : w + -(5 : ℚ) = w - 5 := by ring
          rw [e2]
          exact ms_year_lo (w - 5) (-5) (by linarith)
        rw [e]
        refine ⟨by simp [validScaleTypes], by simp, ?_, by norm_num⟩
        simp [granLowerBound] <;> norm_num
  · have hw1b : (20 : ℚ) ≤ w := hw1
    rcases hδ with rfl | rfl
    · by_cases h : w + 5 ≤ 200
      · have e : rescaleScale ("month", w) 5 = ("month", w + 5) := by
          simp only [rescaleScale]
          exact ms_month_mid (w + 5) 5 (by linarith) h
        rw [e]
        refine ⟨by simp [validScaleTypes], by simp, ?_, by show w + 5 ≤ (205 : ℚ); linarith⟩
        show (20 : ℚ) ≤ w + 5
        linarith
      · push_neg at h
        have e : rescaleScale ("month", w) 5 = ("date", 10) := by
          simp only [rescaleScale]
          exact ms_month_hi (w + 5) 5 h
        rw [e]
        refine ⟨by simp [validScaleTypes], by simp, ?_, by norm_num⟩
        simp [granLowerBound] <;> norm_num
    · by_cases h : (20 : ℚ) ≤ w - 5
      · have e : rescaleScale ("month", w) (-5) = ("month", w - 5) := by
          simp only [rescaleScale]
          have e2 : w + -(5 : ℚ) = w - 5 := by ring
          rw [e2]
          exact ms_month_mid (w - 5) (-5) h (by linarith)
        rw [e]
        refine ⟨by simp [validScaleTypes], by simp, ?_, by show w - 5 ≤ (205 : ℚ); linarith⟩
        show (20 : ℚ) ≤ w - 5
        linarith
      · push_neg at h
        have e : rescaleScale ("month", w) (-5) = ("year", 200 - (-5 : ℚ)) := by
          simp only [rescaleScale]
          have e2 : w + -(5 : ℚ) = w - 5 := by ring
          rw [e2]
          exact ms_month_lo (w - 5) (-5) (by linarith)
        rw [e]
        refine ⟨by simp [validScaleTypes], by simp, ?_, by norm_num⟩
        simp [granLowerBound] <;> norm_num
  · have hw1b : (10 : ℚ) ≤ w := hw1
    rcases hδ with rfl | rfl
    · by_cases h : w + 5 ≤ 200
      · have e : rescaleScale ("date", w) 5 = ("date", w + 5) := by
          simp only [rescaleScale]
          exact ms_date_mid (w + 5) 5 (by linarith) h
        rw [e]
        refine ⟨by simp [validScaleTypes], by simp, ?_, by show w + 5 ≤ (205 : ℚ); linarith⟩
        show (10 : ℚ) ≤ w + 5
        linarith
      · push_neg at h
        have e : rescaleScale ("date", w) 5 = ("hour", 10) := by
          simp only [rescaleScale]
          exact ms_date_hi (w + 5) 5 h
        rw [e]
        refine ⟨by simp [validScaleTypes], by simp, ?_, by norm_num⟩
        simp [granLowerBound] <;> norm_num
    · by_cases h : (10 : ℚ) ≤ w - 5
      · have e : rescaleScale ("date", w) (-5) = ("date", w - 5) := by
          simp only [rescaleScale]
          have e2 : w + -(5 : ℚ) = w - 5 := by ring
          rw [e2]
          exact ms_date_mid (w - 5) (-5) h (by linarith)
        rw [e]
        refine ⟨by simp [validScaleTypes], by simp, ?_, by show w - 5 ≤ (205 : ℚ); linarith⟩
        show (10 : ℚ) ≤ w - 5
        linarith
      · push_neg at h
        have e : rescaleScale ("date", w) (-5) = ("month", 200) := by
          simp only [rescaleScale]
          have e2 : w + -(5 : ℚ) = w - 5 := by ring
          rw [e2]
          exact ms_date_lo (w - 5) (-5) (by linarith)
        rw [e]
        refine ⟨by simp [validScaleTypes], by simp, ?_, by norm_num⟩
        simp [granLowerBound] <;> norm_num
  · have hw1b : (10 : ℚ) ≤ w := hw1
    rcases hδ with rfl | rfl
    · by_cases h : w + 5 ≤ 200
      · have e : rescaleScale ("hour", w) 5 = ("hour", w + 5) := by
          simp only [rescaleScale]
          exact ms_hour_mid (w + 5) 5 (by linarith) h
        rw [e]
        refine ⟨by simp [validScaleTypes], by simp, ?_, by show w + 5 ≤ (205 : ℚ); linarith⟩
        show (10 : ℚ) ≤ w + 5
        linarith
      · push_neg at h
        have e : rescaleScale ("hour", w) 5 = ("minute", 5) := by
          simp only [rescaleScale]
          exact ms_hour_hi (w + 5) 5 h
        rw [e]
        refine ⟨by simp [validScaleTypes], by simp, ?_, by norm_num⟩
        simp [granLowerBound] <;> norm_num
    · by_cases h : (10 : ℚ) ≤ w - 5
      · have e : rescaleScale ("hour", w) (-5) = ("hour", w - 5) := by
          simp only [rescaleScale]
          have e2 : w + -(5 : ℚ) = w - 5 := by ring
          rw [e2]
          exact ms_hour_mid (w - 5) (-5) h (by linarith)
        rw [e]
        refine ⟨by simp [validScaleTypes], by simp, ?_, by show w - 5 ≤ (205 : ℚ); linarith⟩
        show (10 : ℚ) ≤ w - 5
        linarith
      · push_neg at h
        have e : rescaleScale ("hour", w) (-5) = ("date", 200) := by
          simp only [rescaleScale]
          have e2 : w + -(5 : ℚ) = w - 5 := by ring
          rw [e2]
          exact ms_hour_lo (w - 5) (-5) (by linarith)
        rw [e]
        refine ⟨by simp [validScaleTypes], by simp, ?_, by norm_num⟩
        simp [granLowerBound] <;> norm_num
  · have hw1b : (5 : ℚ) ≤ w := hw1
    rcases hδ with rfl | rfl
    · by_cases h : w + 5 ≤ 200
      · have e : rescaleScale ("minute", w) 5 = ("minute", w + 5) := by
          simp only [rescaleScale]
          exact ms_minute_mid (w + 5) 5 (by linarith) h
        rw [e]
        refine ⟨by simp [validScaleTypes], by simp, ?_, by show w + 5 ≤ (205 : ℚ); linarith⟩
        show (5 : ℚ) ≤ w + 5
        linarith
      · push_neg at h
        have e : rescaleScale ("minute", w) 5 = ("second", 5) := by
          simp only [rescaleScale]
          exact ms_minute_hi (w + 5) 5 h
        rw [e]
        refine ⟨by simp [validScaleTypes], by simp, ?_, by norm_num⟩
        simp [granLowerBound] <;> norm_num
    · by_cases h : (5 : ℚ) ≤ w - 5
      · have e : rescaleScale ("minute", w) (-5) = ("minute", w - 5) := by
          simp only [rescaleScale]
          have e2 : w + -(5 : ℚ) = w - 5 := by ring
          rw [e2]
          exact ms_minute_mid (w - 5) (-5) h (by linarith)
        rw [e]
        refine ⟨by simp [validScaleTypes], by simp, ?_, by show w - 5 ≤ (205 : ℚ); linarith⟩
        show (5 : ℚ) ≤ w - 5
        linarith
      · push_neg at h
        have e : rescaleScale ("minute", w) (-5) = ("hour", 200) := by
          simp only [rescaleScale]
          have e2 : w + -(5 : ℚ) = w - 5 := by ring
          rw [e2]
          exact ms_minute_lo (w - 5) (-5) (by linarith)
        rw [e]
        refine ⟨by simp [validScaleTypes], by simp, ?_, by norm_num⟩
        simp [granLowerBound] <;> norm_num
  · have hw1b : (5 : ℚ) ≤ w := hw1
    rcases hδ with rfl | rfl
    · by_cases h : w + 5 ≤ 200
      · have e : rescaleScale ("second", w) 5 = ("second", w + 5) := by
          simp only [rescaleScale]
          exact ms_second_mid (w + 5) 5 (by linarith) h
        rw [e]
        refine ⟨by simp [validScaleTypes], by simp, ?_, by show w + 5 ≤ (205 : ℚ); linarith⟩
        show (5 : ℚ) ≤ w + 5
        linarith
      · push_neg at h
        have e : rescaleScale ("second", w) 5 = ("second", (200 : ℚ)) := by
          simp only [rescaleScale]
          exact ms_second_hi (w + 5) 5 h
        rw [e]
        refine ⟨by simp [validScaleTypes], by simp, ?_, by norm_num⟩
        simp [granLowerBound] <;> norm_num
    · by_cases h : (5 : ℚ) ≤ w - 5
      · have e : rescaleScale ("second", w) (-5) = ("second", w - 5) := by
          simp only [rescaleScale]
          have e2 : w + -(5 : ℚ) = w - 5 := by ring
          rw [e2]
          exact ms_second_mid (w - 5) (-5) h (by linarith)
        rw [e]
        refine ⟨by simp [validScaleTypes], by simp, ?_, by show w - 5 ≤ (205 : ℚ); linarith⟩
        show (5 : ℚ) ≤ w - 5
        linarith
      · push_neg at h
        have e : rescaleScale ("second", w) (-5) = ("minute", 200) := by
          simp only [rescaleScale]
          have e2 : w + -(5 : ℚ) = w - 5 := by ring
          rw [e2]
          exact ms_second_lo (w - 5) (-5) (by linarith)
        rw [e]
        refine ⟨by simp [validScaleTypes], by simp, ?_, by norm_num⟩
        simp [granLowerBound] <;> norm_num
  · exact absurd rfl hms

/-- Witness for C5 at a concrete in-band state. -/
theorem C5_width_band_witness :
    "year" ∈ validScaleTypes ∧ "year" ≠ "millisecond" ∧
    granLowerBound "year" ≤ (100 : ℚ) ∧ (100 : ℚ) ≤ 200 ∧
    ((rescaleScale ("year", (100 : ℚ)) 5).1 ∈ validScaleTypes ∧
     (rescaleScale ("year", (100 : ℚ)) 5).1 ≠ "millisecond" ∧
     granLowerBound ((rescaleScale ("year", (100 : ℚ)) 5).1) ≤
       (rescaleScale ("year", (100 : ℚ)) 5).2 ∧
     (rescaleScale ("year", (100 : ℚ)) 5).2 ≤ 205) :=
  ⟨by decide, by decide, by show (20 : ℚ) ≤ 100; norm_num, by norm_num,
   C5_width_band "year" 100 5 (by decide) (by decide)
     (by show (20 : ℚ) ≤ 100; norm_num) (by norm_num) (Or.inl rfl)⟩

/-- Timeline.moveHorizontal from timeline.js: adds the scroll amount to
focusX and touches nothing else. -/
def moveHorizontal (st : TimelineState) (d : ℚ) : TimelineState :=
  { st with focusX := st.focusX + d }

/-- Timeline.moveVertical from timeline.js: adds the scroll amount to
yOffset and touches nothing else. -/
def moveVertical (st : TimelineState) (d : ℚ) : TimelineState :=
  { st with yOffset := st.yOffset + d }

/-- C10: the pan operations are exact single-field updates: moveHorizontal
adds exactly d to the focus pixel-x and leaves every other field (focus
date, granularity, unit pixel width, vertical offset, canvas width, grid
arrays, title) unchanged, and moveVertical adds exactly d to the vertical
offset leaving every other field unchanged. -/
theorem C10_pan_frame (st : TimelineState) (d : ℚ) :
    (moveHorizontal st d).focusX = st.focusX + d ∧
    (moveHorizontal st d).focusDate = st.focusDate ∧
    (moveHorizontal st d).scaleType = st.scaleType ∧
    (moveHorizontal st d).scaleWidth = st.scaleWidth ∧
    (moveHorizontal st d).yOffset = st.yOffset ∧
    (moveHorizontal st d).canvasWidth = st.canvasWidth ∧
    (moveHorizontal st d).linePosArr = st.linePosArr ∧
    (moveHorizontal st d).lineDateArr = st.lineDateArr ∧
    (moveHorizontal st d).title = st.title ∧
    (moveVertical st d).yOffset = st.yOffset + d ∧
    (moveVertical st d).focusX = st.focusX ∧
    (moveVertical st d).focusDate = st.focusDate ∧
    (moveVertical st d).scaleType = st.scaleType ∧
    (moveVertical st d).scaleWidth = st.scaleWidth ∧
    (moveVertical st d).canvasWidth = st.canvasWidth ∧
    (moveVertical st d).linePosArr = st.linePosArr ∧
    (moveVertical st d).lineDateArr = st.lineDateArr ∧
    (moveVertical st d).title = st.title :=
  ⟨rfl, rfl, rfl, rfl, rfl, rfl, rfl, rfl, rfl,
   rfl, rfl, rfl, rfl, rfl, rfl, rfl, rfl, rfl⟩

/-- The closest-gridline search loop of Timeline.rescale: walks the
position array keeping the index of the smallest absolute distance to
mouseX seen so far (strict comparison, so the first minimum wins). -/
def closestAux (mouseX : ℚ) : List ℚ → ℕ → ℕ × ℚ → ℕ × ℚ
  | [], _, acc => acc
  | x :: rest, i, acc =>
      closestAux mouseX rest (i + 1)
        (if |x - mouseX| < acc.2 then (i, |x - mouseX|) else acc)

/-- The index chosen by the search loop of Timeline.rescale, starting from
index 0 with the distance of the first entry. -/
def closestIndex (arr : List ℚ) (mouseX : ℚ) : ℕ :=
  (closestAux mouseX arr 0 (0, |arr.headD 0 - mouseX|)).1

/-- Timeline.rescale from timeline.js: adds the speed to the scale width,
re-anchors focusX and focusDate to the grid line closest to mouseX, then
runs updateScaleTypeByWidth. -/
def rescale (st : TimelineState) (rescaleSpeed mouseX : ℚ) : TimelineState :=
  let i := closestIndex st.linePosArr mouseX
  let r := updateScaleTypeByWidth st.scaleType (st.scaleWidth + rescaleSpeed)
    rescaleSpeed
  { st with scaleType := r.1, scaleWidth := r.2,
            focusX := st.linePosArr.getD i 0,
            focusDate := st.lineDateArr.getD i ⟨1970, 0, 1, 0, 0, 0, 0⟩ }

theorem closestAux_spec (mx : ℚ) : ∀ (rest : List ℚ) (i : ℕ) (acc : ℕ × ℚ),
    ((closestAux mx rest i acc = acc ∨
      ∃ k, k < rest.length ∧
        closestAux mx rest i acc = (i + k, |rest.getD k 0 - mx|)) ∧
     (closestAux mx rest i acc).2 ≤ acc.2 ∧
     (∀ k, k < rest.length →
        (closestAux mx rest i acc).2 ≤ |rest.getD k 0 - mx|)) := by
  intro rest
  induction rest with
  | nil =>
    intro i acc
    refine ⟨Or.inl rfl, le_rfl, ?_⟩
    intro k hk
    simp at hk
  | cons x rest ih =>
    intro i acc
    by_cases hc : |x - mx| < acc.2
    · have hstep : closestAux mx (x :: rest) i acc =
          closestAux mx rest (i + 1) (i, |x - mx|) := by
        show closestAux mx rest (i + 1)
          (if |x - mx| < acc.2 then (i, |x - mx|) else acc) = _
        rw [if_pos hc]
      obtain ⟨hform, hle, hmin⟩ := ih (i + 1) (i, |x - mx|)
      refine ⟨?_, ?_, ?_⟩
      · rw [hstep]
        right
        rcases hform with heq | ⟨k, hk, heq⟩
        · exact ⟨0, by simp, by simpa using heq⟩
        · refine ⟨k + 1, by simpa using hk, ?_⟩
          rw [heq]
          have he : i + 1 + k = i + (k + 1) := by omega
          rw [he]
          rfl
      · rw [hstep]
        exact le_trans hle (le_of_lt hc)
      · intro k hk
        rw [hstep]
        rcases k with _ | k
        · simpa using hle
        · exact hmin k (by simpa using hk)
    · have hstep : closestAux mx (x :: rest) i acc =
          closestAux mx rest (i + 1) acc := by
        show closestAux mx rest (i + 1)
          (if |x - mx| < acc.2 then (i, |x - mx|) else acc) = _
        rw [if_neg hc]
      obtain ⟨hform, hle, hmin⟩ := ih (i + 1) acc
      refine ⟨?_, ?_, ?_⟩
      · rw [hstep]
        rcases hform with heq | ⟨k, hk, heq⟩
        · exact Or.inl heq
        · right
          refine ⟨k + 1, by simpa using hk, ?_⟩
          rw [heq]
          have he : i + 1 + k = i + (k + 1) := by omega
          rw [he]
          rfl
      · rw [hstep]
        exact hle
      · intro k hk
        rw [hstep]
        rcases k with _ | k
        · exact le_trans hle (le_of_not_lt hc)
        · exact hmin k (by simpa using hk)

theorem headD_eq_getD {l : List ℚ} (h : 0 < l.length) : l.headD 0 = l.getD 0 0 := by
  cases l with
  | nil => simp at h
  | cons a t => rfl

/-- C6: for every state with a non-empty grid, rescale re-anchors the focus
to an existing grid line: there is an index i of the position array such
that the new focusX is the position stored there, the new focusDate is the
date stored at the same index, and that position is at least as close to
mouseX as every entry of the position array. -/
theorem C6_rescale_anchor (st : TimelineState) (δ mx : ℚ)
    (hne : st.linePosArr ≠ []) :
    ∃ i, i < st.linePosArr.length ∧
      (rescale st δ mx).focusX = st.linePosArr.getD i 0 ∧
      (rescale st δ mx).focusDate =
        st.lineDateArr.getD i ⟨1970, 0, 1, 0, 0, 0, 0⟩ ∧
      ∀ j, j < st.linePosArr.length →
        |st.linePosArr.getD i 0 - mx| ≤ |st.linePosArr.getD j 0 - mx| := by
  obtain ⟨hform, hle, hmin⟩ :=
    closestAux_spec mx st.linePosArr 0 (0, |st.linePosArr.headD 0 - mx|)
  have hlen : 0 < st.linePosArr.length := List.length_pos.mpr hne
  have hhead : st.linePosArr.headD 0 = st.linePosArr.getD 0 0 := headD_eq_getD hlen
  have hkey : closestIndex st.linePosArr mx < st.linePosArr.length ∧
      (closestAux mx st.linePosArr 0 (0, |st.linePosArr.headD 0 - mx|)).2 =
        |st.linePosArr.getD (closestIndex st.linePosArr mx) 0 - mx| := by
    rcases hform with heq | ⟨k, hk, heq⟩
    · have hc0 : closestIndex st.linePosArr mx = 0 := by
        simp only [closestIndex, heq]
      rw [hc0]
      constructor
      · exact hlen
      · rw [heq, hhead]
    · have hck : closestIndex st.linePosArr mx = k := by
        simp only [closestIndex, heq]
        omega
      rw [hck]
      constructor
      · exact hk
      · rw [heq]
  obtain ⟨hi, hval⟩ := hkey
  refine ⟨closestIndex st.linePosArr mx, hi, rfl, rfl, ?_⟩
  intro j hj
  rw [← hval]
  exact hmin j hj

/-- C4 (counterexample): advancing 2024-05-15 10:30 by one year gives
2025-01-15 10:30 — the month is reset but the day-of-month and time of day
are preserved, not zeroed as the spec claims for year-like granularities. -/
theorem C4_counterexample :
    incrementDateByScaleType ⟨2024, 4, 15, 10, 30, 0, 0⟩ "year" 1 =
      ⟨2025, 0, 15, 10, 30, 0, 0⟩ ∧
    ¬ (incrementDateByScaleType ⟨2024, 4, 15, 10, 30, 0, 0⟩ "year" 1).day = 1 := by
  refine ⟨by decide, by decide⟩

/-- C4 (amended): on a normalized date with day-of-month at most 28 (so no
end-of-month overflow), incrementDateByScaleType behaves per granularity as
follows: millennium/century/decade floor the shifted year to the unit
boundary and reset only the month (day and time of day survive); year adds
n and resets only the month; month resets day to 1 and clears the time of
day before adding; date/hour/minute/second clear only the strictly finer
fields before adding; millisecond just adds. -/
theorem C4_increment_fields (d : JSDate) (h : Normalized d)
    (hday : d.day ≤ 28) (n : Int) :
    incrementDateByScaleType d "millennium" n =
      ⟨(d.year + n * 1000) / 1000 * 1000, 0, d.day,
        d.hour, d.minute, d.second, d.ms⟩ ∧
    incrementDateByScaleType d "century" n =
      ⟨(d.year + n * 100) / 100 * 100, 0, d.day,
        d.hour, d.minute, d.second, d.ms⟩ ∧
    incrementDateByScaleType d "decade" n =
      ⟨(d.year + n * 10) / 10 * 10, 0, d.day,
        d.hour, d.minute, d.second, d.ms⟩ ∧
    incrementDateByScaleType d "year" n =
      ⟨d.year + n, 0, d.day, d.hour, d.minute, d.second, d.ms⟩ ∧
    incrementDateByScaleType d "month" n =
      ⟨d.year + (d.month + n) / 12, (d.month + n) % 12, 1, 0, 0, 0, 0⟩ ∧
    incrementDateByScaleType d "date" n =
      setDate ⟨d.year, d.month, d.day, 0, 0, 0, 0⟩ (d.day + n) ∧
    incrementDateByScaleType d "hour" n =
      setHours ⟨d.year, d.month, d.day, d.hour, 0, 0, 0⟩ (d.hour + n) ∧
    incrementDateByScaleType d "minute" n =
      setMinutes ⟨d.year, d.month, d.day, d.hour, d.minute, 0, 0⟩ (d.minute + n) ∧
    incrementDateByScaleType d "second" n =
      setSeconds ⟨d.year, d.month, d.day, d.hour, d.minute, d.second, 0⟩
        (d.second + n) ∧
    incrementDateByScaleType d "millisecond" n = setMilliseconds d (d.ms + n) := by
  obtain ⟨h1, h2, h3, h4, h5, h6, h7, h8, h9, h10, h11, h12⟩ := h
  have hN : Normalized d := ⟨h1, h2, h3, h4, h5, h6, h7, h8, h9, h10, h11, h12⟩
  have yearlike : ∀ y' : Int,
      setMonth (setFullYear d y') 0 =
        ⟨y', 0, d.day, d.hour, d.minute, d.second, d.ms⟩ := by
    intro y'
    have hb' := daysInMonth_bounds y' d.month
    have e1 : setFullYear d y' =
        ⟨y', d.month, d.day, d.hour, d.minute, d.second, d.ms⟩ :=
      setFullYear_valid d y' h1 h2 h3 (by omega)
    rw [e1]
    have hb0 := daysInMonth_bounds y' 0
    exact setMonth_valid ⟨y', d.month, d.day, d.hour, d.minute, d.second, d.ms⟩ 0
      (by norm_num) (by norm_num) (by dsimp only; omega) (by dsimp only; omega)
  refine ⟨?_, ?_, ?_, ?_, increment_month_eq d hN n, increment_date_eq d hN n,
    increment_hour_eq d hN n, increment_minute_eq d hN n,
    increment_second_eq d hN n, increment_millisecond_eq d n⟩
  · exact yearlike ((d.year + n * 1000) / 1000 * 1000)
  · exact yearlike ((d.year + n * 100) / 100 * 100)
  · exact yearlike ((d.year + n * 10) / 10 * 10)
  · exact yearlike (d.year + n)

/-- Witness for C4 at a concrete date: one millennium step from 2024-05-15
10:30 lands on year 3000 with day and time preserved. -/
theorem C4_increment_fields_witness :
    incrementDateByScaleType ⟨2024, 4, 15, 10, 30, 0, 0⟩ "millennium" 1 =
      ⟨3000, 0, 15, 10, 30, 0, 0⟩ :=
  (C4_increment_fields ⟨2024, 4, 15, 10, 30, 0, 0⟩ (by decide) (by decide) 1).1

/-- Value of a decimal digit character, none for anything else. -/
def digit? (c : Char) : Option ℕ :=
  if c = '0' then some 0 else if c = '1' then some 1 else if c = '2' then some 2
  else if c = '3' then some 3 else if c = '4' then some 4 else if c = '5' then some 5
  else if c = '6' then some 6 else if c = '7' then some 7 else if c = '8' then some 8
  else if c = '9' then some 9 else none

/-- Decimal value of a digit string, none when a non-digit appears. -/
def natOfDigitsAux : List Char → ℕ → Option ℕ
  | [], acc => some acc
  | c :: rest, acc =>
      match digit? c with
      | some v => natOfDigitsAux rest (acc * 10 + v)
      | none => none

/-- JavaScript Number() on the strings parseDate feeds it (digit runs between
dashes): the empty string is 0, a digit string is its value, anything else is
NaN, modelled as none. -/
def jsNumber (chars : List Char) : Option Int :=
  if chars = [] then some 0
  else (natOfDigitsAux chars 0).map (fun n => (n : Int))

/-- split("-") on the character list of a string. -/
def splitDash (l : List Char) : List (List Char) :=
  l.foldr (fun c acc =>
    if c = '-' then [] :: acc else (c :: acc.headD []) :: acc.tail) [[]]

/-- The Date-building pipeline of Timeline.#parseDate: starts from
new Date(0,0,0) (December 31, 1899), applies setFullYear (with the BC sign),
setMonth and setDate unconditionally, then the optional time setters guarded
by JavaScript truthiness (a missing, NaN or zero component is skipped). A
NaN reaching setFullYear/setMonth/setDate makes the date invalid, modelled
as none. -/
def buildParsedDate (year month day hour minute second ms : Option Int)
    (neg : Bool) : Option JSDate :=
  match year, month, day with
  | some y, some m, some dd =>
      let d1 := setFullYear (jsNewDate 0 0 0) ((if neg then -1 else 1) * y)
      let d2 := setMonth d1 m
      let d3 := setDate d2 dd
      let d4 := match hour with
        | some h => if h = 0 then d3 else setHours d3 h
        | none => d3
      let d5 := match minute with
        | some mi => if mi = 0 then d4 else setMinutes d4 mi
        | none => d4
      let d6 := match second with
        | some s2 => if s2 = 0 then d5 else setSeconds d5 s2
        | none => d5
      let d7 := match ms with
        | some v => if v = 0 then d6 else setMilliseconds d6 v
        | none => d6
      some d7
  | _, _, _ => none

/-- Timeline.#parseDate from timeline.js: strips a leading minus (BC year),
splits on dashes, converts each piece with Number and feeds the components
to the Date pipeline. It never throws. -/
def parseDate (str : String) : Option JSDate :=
  let cs := str.data
  let neg := match cs with
    | '-' :: _ => true
    | _ => false
  let cs2 := match cs with
    | '-' :: rest => rest
    | l => l
  let parts := (splitDash cs2).map jsNumber
  buildParsedDate (parts.getD 0 none) (parts.getD 1 none) (parts.getD 2 none)
    (parts.getD 3 none) (parts.getD 4 none) (parts.getD 5 none)
    (parts.getD 6 none) neg

theorem setHours_on_midnight (y m dd hh : Int) (hm0 : 0 ≤ m) (hm1 : m ≤ 11)
    (hd1 : 1 ≤ dd) (hd2 : dd ≤ daysInMonth y m) (hh0 : 0 ≤ hh) (hh1 : hh ≤ 23) :
    setHours ⟨y, m, dd, 0, 0, 0, 0⟩ hh = ⟨y, m, dd, hh, 0, 0, 0⟩ := by
  simp only [setHours]
  have e : daysFromCivil y m dd * msPerDay + hh * 3600000 + 0 * 60000 + 0 * 1000 + 0 =
      daysFromCivil y m dd * msPerDay + hh * 3600000 := by ring
  rw [e, ofTimestamp_fields _ _ (by omega) (by omega)]
  rw [civilFromDays_daysFromCivil y m dd hm0 hm1 hd1 hd2]
  have e1 : hh * 3600000 / 3600000 = hh := by omega
  have e2 : hh * 3600000 / 60000 % 60 = 0 := by omega
  have e3 : hh * 3600000 / 1000 % 60 = 0 := by omega
  have e4 : hh * 3600000 % 1000 = 0 := by omega
  rw [e1, e2, e3, e4]

set_option maxRecDepth 4000 in
/-- C9 (counterexample): the parser never raises. A malformed string yields
an invalid date (none), not an error; and the conforming string
"2020-01-15" parses to March 15, 2020 (month field 2) — not January or
February 15 — because the pipeline seeds from December 31, 1899 and setMonth
overflows on day 31. A BC string negates the year. -/
theorem C9_counterexample :
    parseDate "hello" = none ∧
    parseDate "2020-01-15" = some ⟨2020, 2, 15, 0, 0, 0, 0⟩ ∧
    parseDate "2020-01-15" ≠ some ⟨2020, 0, 15, 0, 0, 0, 0⟩ ∧
    parseDate "2020-01-15" ≠ some ⟨2020, 1, 15, 0, 0, 0, 0⟩ ∧
    parseDate "-0044-02-10" = some ⟨-44, 2, 10, 0, 0, 0, 0⟩ := by decide

/-- C9 (amended): the pipeline on parsed components: for a target month with
31 days (so setMonth does not overflow the December-31 seed) and day at most
28, the built date carries the parsed year (negated for a BC string), the
0-based month and the day; a missing time gives midnight and a nonzero hour
in range is set verbatim. -/
theorem C9_parse_pipeline (y m dd : Int) (hm0 : 0 ≤ m) (hm1 : m ≤ 11)
    (hdim : daysInMonth y m = 31) (hdimn : daysInMonth (-y) m = 31)
    (hd1 : 1 ≤ dd) (hd2 : dd ≤ 28) (hh : Int) (hh1 : 1 ≤ hh) (hh2 : hh ≤ 23) :
    buildParsedDate (some y) (some m) (some dd) none none none none false =
      some ⟨y, m, dd, 0, 0, 0, 0⟩ ∧
    buildParsedDate (some y) (some m) (some dd) none none none none true =
      some ⟨-y, m, dd, 0, 0, 0, 0⟩ ∧
    buildParsedDate (some y) (some m) (some dd) (some hh) none none none false =
      some ⟨y, m, dd, hh, 0, 0, 0⟩ := by
  have hbase : jsNewDate 0 0 0 = ⟨1899, 11, 31, 0, 0, 0, 0⟩ := by decide
  have hcore : ∀ y' : Int, daysInMonth y' m = 31 →
      setDate (setMonth (setFullYear (jsNewDate 0 0 0) y') m) dd =
        ⟨y', m, dd, 0, 0, 0, 0⟩ := by
    intro y' hdim'
    rw [hbase]
    have e1 : setFullYear ⟨1899, 11, 31, 0, 0, 0, 0⟩ y' =
        ⟨y', 11, 31, 0, 0, 0, 0⟩ := by
      apply setFullYear_valid ⟨1899, 11, 31, 0, 0, 0, 0⟩ y' (by norm_num) (by norm_num)
        (by norm_num)
      show (31 : Int) ≤ daysInMonth y' 11
      simp only [daysInMonth]
      norm_num
    rw [e1]
    have e2 : setMonth ⟨y', 11, 31, 0, 0, 0, 0⟩ m = ⟨y', m, 31, 0, 0, 0, 0⟩ := by
      apply setMonth_valid ⟨y', 11, 31, 0, 0, 0, 0⟩ m hm0 hm1 (by norm_num)
      show (31 : Int) ≤ daysInMonth y' m
      omega
    rw [e2]
    apply setDate_valid ⟨y', m, 31, 0, 0, 0, 0⟩ dd hm0 hm1 hd1
    show dd ≤ daysInMonth y' m
    omega
  have hpos : ((if false then -1 else 1 : Int)) * y = y := by norm_num
  have hneg : ((if true then -1 else 1 : Int)) * y = -y := by norm_num
  refine ⟨?_, ?_, ?_⟩
  · show some (setDate (setMonth (setFullYear (jsNewDate 0 0 0)
      ((if false then -1 else 1) * y)) m) dd) = _
    rw [hpos, hcore y hdim]
  · show some (setDate (setMonth (setFullYear (jsNewDate 0 0 0)
      ((if true then -1 else 1) * y)) m) dd) = _
    rw [hneg, hcore (-y) hdimn]
  · show some (if hh = 0 then _ else setHours (setDate (setMonth (setFullYear
      (jsNewDate 0 0 0) ((if false then -1 else 1) * y)) m) dd) hh) = _
    rw [if_neg (by omega), hpos, hcore y hdim,
      setHours_on_midnight y m dd hh hm0 hm1 hd1 (by omega) (by omega) hh2]

/-- Witness for C9 at concrete components: year 2020, month 2 (March), day
15, hour 10. -/
theorem C9_parse_pipeline_witness :
    buildParsedDate (some 2020) (some 2) (some 15) (some 10) none none none
      false = some ⟨2020, 2, 15, 10, 0, 0, 0⟩ :=
  (C9_parse_pipeline 2020 2 15 (by decide) (by decide) (by decide) (by decide)
    (by decide) (by decide) 10 (by decide) (by decide)).2.2

/-- Timeline.setScaleType from timeline.js: validates against the list of
accepted scale types and throws on an invalid one. -/
def setScaleType (st : TimelineState) (g : String) : Except String TimelineState :=
  if ¬ validScaleTypes.contains g then
    .error ("Invalid scaleType, scaleType cannot be '" ++ g ++ "'")
  else .ok { st with scaleType := g }

/-- The timeline-level fields of a loaded JSON document. -/
structure TimelineDoc where
  title : String
  scaleWidth : ℚ
  scaleType : String
  focusDate : String
  focusX : ℚ

/-- The timeline-property part of Timeline.load from timeline.js: assigns
title, scaleWidth, scaleType and focusX verbatim from the document — no
validation of scaleType — and parses focusDate (an invalid parse is kept as
a placeholder date, standing for JavaScript's Invalid Date object). -/
def load (st : TimelineState) (doc : TimelineDoc) : TimelineState :=
  { st with title := doc.title, scaleWidth := doc.scaleWidth,
            scaleType := doc.scaleType,
            focusDate := (parseDate doc.focusDate).getD ⟨1970, 0, 1, 0, 0, 0, 0⟩,
            focusX := doc.focusX }

/-- C8 (counterexample): two core operations accept the unrecognized
granularity "fortnight" silently: incrementDateByScaleType returns the date
unchanged (its switch has no default case) and load stores the string
verbatim into the state. -/
theorem C8_counterexample :
    ("fortnight" ∉ validScaleTypes) ∧
    incrementDateByScaleType ⟨2024, 0, 1, 0, 0, 0, 0⟩ "fortnight" 5 =
      ⟨2024, 0, 1, 0, 0, 0, 0⟩ ∧
    (load
      { title := "", scaleWidth := 200, scaleType := "decade",
        focusDate := ⟨2000, 0, 1, 0, 0, 0, 0⟩, focusX := 0, yOffset := 0,
        canvasWidth := 1000, linePosArr := [], lineDateArr := [] }
      { title := "t", scaleWidth := 100, scaleType := "fortnight",
        focusDate := "2020-01-15", focusX := 50 }).scaleType = "fortnight" := by
  refine ⟨by decide, by decide, rfl⟩

/-- C8 (amended): of the four operations the claim names, only two reject an
unrecognized granularity: getFocusDateAsValue and setScaleType fail with a
descriptive error, while incrementDateByScaleType silently returns the date
unchanged and load assigns the granularity string verbatim without
validation. -/
theorem C8_invalid_granularity (g : String) (hg : g ∉ validScaleTypes)
    (d : JSDate) (n : Int) (st : TimelineState) (doc : TimelineDoc) :
    getFocusDateAsValue d g =
      Except.error ("Invalid scaleType, scaleType cannot be '" ++ g ++ "'") ∧
    setScaleType st g =
      Except.error ("Invalid scaleType, scaleType cannot be '" ++ g ++ "'") ∧
    incrementDateByScaleType d g n = d ∧
    (load st doc).scaleType = doc.scaleType := by
  have hne : ∀ s, s ∈ validScaleTypes → ¬ g = s := fun s hs he => hg (he ▸ hs)
  have hcon : ¬ validScaleTypes.contains g = true := by
    intro hc
    obtain ⟨a, ha1, ha2⟩ := List.contains_iff_exists_mem_beq.mp hc
    have : g = a := by simpa using ha2
    exact hg (this ▸ ha1)
  refine ⟨?_, ?_, ?_, rfl⟩
  · simp only [getFocusDateAsValue, if_pos hcon]
  · simp only [setScaleType, if_pos hcon]
  · simp only [incrementDateByScaleType,
      if_neg (hne "millennium" (by decide)), if_neg (hne "century" (by decide)),
      if_neg (hne "decade" (by decide)), if_neg (hne "year" (by decide)),
      if_neg (hne "month" (by decide)), if_neg (hne "date" (by decide)),
      if_neg (hne "hour" (by decide)), if_neg (hne "minute" (by decide)),
      if_neg (hne "second" (by decide)), if_neg (hne "millisecond" (by decide))]

/-- Witness for C8 at the concrete granularity "fortnight". -/
theorem C8_invalid_granularity_witness :
    "fortnight" ∉ validScaleTypes ∧
    getFocusDateAsValue ⟨2024, 0, 1, 0, 0, 0, 0⟩ "fortnight" =
      Except.error
        ("Invalid scaleType, scaleType cannot be '" ++ "fortnight" ++ "'") :=
  ⟨by decide,
   (C8_invalid_granularity "fortnight" (by decide) ⟨2024, 0, 1, 0, 0, 0, 0⟩ 1
     { title := "", scaleWidth := 200, scaleType := "decade",
       focusDate := ⟨2000, 0, 1, 0, 0, 0, 0⟩, focusX := 0, yOffset := 0,
       canvasWidth := 1000, linePosArr := [], lineDateArr := [] }
     { title := "t", scaleWidth := 100, scaleType := "x",
       focusDate := "2020-01-15", focusX := 50 }).1⟩

/-- TimePeriod.#getGridWidthUnits from timeline.js: the span of the grid in
units of the scale type, read off the first and last grid dates. -/
def getGridWidthUnits (startDate endDate : JSDate) (scaleType : String) : Int :=
  if scaleType = "month" then
    (endDate.year * 12 + endDate.month) - (startDate.year * 12 + startDate.month)
  else if scaleType = "date" then endDate.day - startDate.day
  else if scaleType = "hour" then endDate.hour - startDate.hour
  else if scaleType = "minute" then endDate.minute - startDate.minute
  else if scaleType = "second" then endDate.second - startDate.second
  else endDate.year - startDate.year

/-- TimePeriod.#calculateX from timeline.js: maps a date to a pixel x using
the current grid (first and last grid line), with one formula per scale
type; every non-listed scale type falls to the year-like branch. Division
by a zero unit count is modelled as 0 (JavaScript produces Infinity/NaN);
the theorems below avoid that case. -/
def calculateX (st : TimelineState) (d : JSDate) : ℚ :=
  let timelineStartX := st.linePosArr.getD 0 0
  let timelineStartDate := st.lineDateArr.getD 0 ⟨1970, 0, 1, 0, 0, 0, 0⟩
  let timelineEndX := st.linePosArr.getD (st.linePosArr.length - 1) 0
  let timelineEndDate :=
    st.lineDateArr.getD (st.lineDateArr.length - 1) ⟨1970, 0, 1, 0, 0, 0, 0⟩
  let gridWidthPixels := timelineEndX - timelineStartX
  let gridWidthUnits :=
    getGridWidthUnits timelineStartDate timelineEndDate st.scaleType
  let pixelsPerUnit := gridWidthPixels / (gridWidthUnits : ℚ)
  if st.scaleType = "month" then
    timelineStartX +
      (((d.year - timelineStartDate.year) * 12 : Int) : ℚ) * st.scaleWidth +
      ((d.month - timelineStartDate.month : Int) : ℚ) * st.scaleWidth +
      ((d.day : ℚ) * st.scaleWidth) / ((getDaysInMonth d : Int) : ℚ) +
      ((d.hour : ℚ) * st.scaleWidth) / 24
  else if st.scaleType = "date" then
    timelineStartX +
      ((getCalendarDayDifference timelineStartDate d : Int) : ℚ) * st.scaleWidth +
      (d.hour : ℚ) * st.scaleWidth / 24
  else if st.scaleType = "hour" then
    timelineStartX +
      ((getCalendarDayDifference timelineStartDate d : Int) : ℚ) * 24 * st.scaleWidth +
      ((d.hour - timelineStartDate.hour : Int) : ℚ) * st.scaleWidth +
      (d.minute : ℚ) * st.scaleWidth / 60
  else if st.scaleType = "minute" then
    timelineStartX +
      ((toTimestamp d - toTimestamp timelineStartDate : Int) : ℚ) / 1000 / 60 *
        st.scaleWidth
  else if st.scaleType = "second" then
    timelineStartX +
      ((toTimestamp d - toTimestamp timelineStartDate : Int) : ℚ) / 1000 *
        st.scaleWidth
  else
    timelineStartX +
      ((d.year - timelineStartDate.year : Int) : ℚ) * pixelsPerUnit +
      ((d.month : ℚ) * pixelsPerUnit) / 12 +
      ((d.day : ℚ) * pixelsPerUnit) / 365

/-- The pixel box TimePeriod.setupCoordinates computes: start x, end x,
width and bounding width (the text width is a parameter standing for the
canvas measureText result plus margins). -/
structure Coords where
  x : ℚ
  endX : ℚ
  width : ℚ
  boundingWidth : ℚ
deriving Repr

/-- TimePeriod.setupCoordinates from timeline.js, x/width part: computes
both ends with #calculateX, clamps the start at -1000 on the left, replaces
the width when the bar starts on screen but ends far right, caps the width
at twice the canvas width, and takes the bounding width as the larger of
bar width and text width. -/
def setupCoordinates (st : TimelineState) (startDate endDate : JSDate)
    (textWidth : ℚ) : Coords :=
  let x0 := calculateX st startDate
  let x1 := if x0 < -1000 then -1000 else x0
  let endX := calculateX st endDate
  let w0 := endX - x1
  let w1 := if 0 < x1 ∧ x1 < st.canvasWidth ∧ endX > st.canvasWidth + 1000
            then st.canvasWidth - x1 + 1000 else w0
  let w2 := if w1 > st.canvasWidth * 2 then st.canvasWidth * 2 else w1
  ⟨x1, endX, w2, max w2 textWidth⟩

/-- C7 (counterexample): a period starting in year 12000 on a year-scale
grid spanning 2000–2010 over pixels 0–1000 (canvas width 1000) gets start
x = 1000000 + 20/73, far beyond canvasWidth + 1000: the start x is clamped
only on the left (at -1000), never on the right, so coordinates fed to
layout are not bounded near the canvas. -/
theorem C7_counterexample :
    (setupCoordinates
      { title := "", scaleWidth := 100, scaleType := "year",
        focusDate := ⟨2000, 0, 1, 0, 0, 0, 0⟩, focusX := 0, yOffset := 0,
        canvasWidth := 1000, linePosArr := [0, 1000],
        lineDateArr := [⟨2000, 0, 1, 0, 0, 0, 0⟩, ⟨2010, 0, 1, 0, 0, 0, 0⟩] }
      ⟨12000, 0, 1, 0, 0, 0, 0⟩ ⟨12001, 0, 1, 0, 0, 0, 0⟩ 0).x =
      1000000 + 20 / 73 ∧
    ¬ (setupCoordinates
      { title := "", scaleWidth := 100, scaleType := "year",
        focusDate := ⟨2000, 0, 1, 0, 0, 0, 0⟩, focusX := 0, yOffset := 0,
        canvasWidth := 1000, linePosArr := [0, 1000],
        lineDateArr := [⟨2000, 0, 1, 0, 0, 0, 0⟩, ⟨2010, 0, 1, 0, 0, 0, 0⟩] }
      ⟨12000, 0, 1, 0, 0, 0, 0⟩ ⟨12001, 0, 1, 0, 0, 0, 0⟩ 0).x ≤ 1000 + 1000 := by
  have e : (setupCoordinates
      { title := "", scaleWidth := 100, scaleType := "year",
        focusDate := ⟨2000, 0, 1, 0, 0, 0, 0⟩, focusX := 0, yOffset := 0,
        canvasWidth := 1000, linePosArr := [0, 1000],
        lineDateArr := [⟨2000, 0, 1, 0, 0, 0, 0⟩, ⟨2010, 0, 1, 0, 0, 0, 0⟩] }
      ⟨12000, 0, 1, 0, 0, 0, 0⟩ ⟨12001, 0, 1, 0, 0, 0, 0⟩ 0).x =
      1000000 + 20 / 73 := by
    simp [setupCoordinates, calculateX, getGridWidthUnits]
    norm_num
  exact ⟨e, by rw [e]; norm_num⟩

/-- C7 (amended): what the clamps do guarantee: the start x is at least
-1000, the width is at most twice the canvas width, and the bounding width
is the larger of width and text width. The start x and end x have no upper
clamp (see the counterexample). -/
theorem C7_coordinate_clamps (st : TimelineState) (sd ed : JSDate) (tw : ℚ) :
    -1000 ≤ (setupCoordinates st sd ed tw).x ∧
    (setupCoordinates st sd ed tw).width ≤ st.canvasWidth * 2 ∧
    (setupCoordinates st sd ed tw).boundingWidth =
      max (setupCoordinates st sd ed tw).width tw := by
  simp only [setupCoordinates]
  refine ⟨?_, ?_, by trivial⟩
  · split_ifs <;> linarith
  · split_ifs <;> linarith

/-- The pixel box of a laid-out period as the packer reads it: start x and
bounding width (getStartX and getBoundingWidth of TimePeriod). -/
structure PBox where
  x : ℚ
  bw : ℚ
deriving Repr, DecidableEq

/-- getBoundingEndX of the period at index j (start x plus bounding width);
out-of-range indices give the zero box. -/
def boxEndX (arr : List PBox) (j : ℕ) : ℚ :=
  (arr.getD j ⟨0, 0⟩).x + (arr.getD j ⟨0, 0⟩).bw

/-- The end x the packing loop compares against: the bounding end of the
last period placed in the row. -/
def endOfRow (arr : List PBox) (row : List ℕ) : ℚ :=
  boxEndX arr (row.getD (row.length - 1) 0)

/-- One pass of the row-walking while loop of SwimLane.setUpTimePeriods:
period i goes into the first row whose last period ends at or before i's
start x; if none fits a new row is appended. -/
def placeIdx (arr : List PBox) (i : ℕ) : List (List ℕ) → List (List ℕ)
  | [] => [[i]]
  | row :: rest =>
      if (arr.getD i ⟨0, 0⟩).x < endOfRow arr row then
        row :: placeIdx arr i rest
      else (row ++ [i]) :: rest

/-- The row assignment computed by SwimLane.setUpTimePeriods: row 0 is
seeded with period 0, then periods 1, 2, … are placed in order. An empty
lane is returned untouched. -/
def packRows (arr : List PBox) : List (List ℕ) :=
  if arr = [] then []
  else
    (List.range (arr.length - 1)).foldl
      (fun rows k => placeIdx arr (k + 1) rows) [[0]]

/-- The no-overlap order between box indices: the first box ends at or
before the second starts. -/
def boxLe (arr : List PBox) (a b : ℕ) : Prop :=
  boxEndX arr a ≤ (arr.getD b ⟨0, 0⟩).x

instance (arr : List PBox) (a b : ℕ) : Decidable (boxLe arr a b) := by
  unfold boxLe
  infer_instance

theorem getLast_getD {α : Type} (dflt : α) :
    ∀ (l : List α), l ≠ [] → ∀ (h : l ≠ []),
      l.getD (l.length - 1) dflt = l.getLast h := by
  intro l
  induction l with
  | nil => intro h; exact absurd rfl h
  | cons a t ih =>
    intro _ h
    cases t with
    | nil => rfl
    | cons b t' =>
      have hne : b :: t' ≠ [] := by simp
      have e1 : (a :: b :: t').getD ((a :: b :: t').length - 1) dflt =
          (b :: t').getD ((b :: t').length - 1) dflt := by
        simp [List.getD]
      rw [e1, ih hne hne, List.getLast_cons hne]

theorem chain'_append_singleton {α : Type} (R : α → α → Prop) (l : List α)
    (a : α) (hl : l.Chain' R) (hne : l ≠ []) (hlast : ∀ h : l ≠ [], R (l.getLast h) a) :
    (l ++ [a]).Chain' R := by
  rw [List.chain'_append]
  refine ⟨hl, List.chain'_singleton a, ?_⟩
  intro x hx y hy
  rw [List.getLast?_eq_getLast l hne, Option.mem_some_iff] at hx
  rw [List.head?_cons, Option.mem_some_iff] at hy
  subst hx
  subst hy
  exact hlast hne

theorem placeIdx_preserves (arr : List PBox) (i : ℕ) :
    ∀ rows : List (List ℕ),
      (∀ r ∈ rows, r ≠ [] ∧ r.Chain' (boxLe arr)) →
      ∀ r ∈ placeIdx arr i rows, r ≠ [] ∧ r.Chain' (boxLe arr) := by
  intro rows
  induction rows with
  | nil =>
    intro _ r hr
    simp only [placeIdx, List.mem_singleton] at hr
    subst hr
    exact ⟨by simp, List.chain'_singleton i⟩
  | cons row rest ih =>
    intro hall r hr
    have hrow := hall row (by simp)
    have hrest : ∀ r ∈ rest, r ≠ [] ∧ r.Chain' (boxLe arr) :=
      fun r hr => hall r (by simp [hr])
    by_cases hc : (arr.getD i ⟨0, 0⟩).x < endOfRow arr row
    · have hstep : placeIdx arr i (row :: rest) = row :: placeIdx arr i rest := by
        simp only [placeIdx]
        rw [if_pos hc]
      rw [hstep, List.mem_cons] at hr
      rcases hr with rfl | h
      · exact hrow
      · exact ih hrest r h
    · have hstep : placeIdx arr i (row :: rest) = (row ++ [i]) :: rest := by
        simp only [placeIdx]
        rw [if_neg hc]
      rw [hstep, List.mem_cons] at hr
      rcases hr with rfl | h
      · refine ⟨by simp, ?_⟩
        apply chain'_append_singleton (boxLe arr) row i hrow.2 hrow.1
        intro h
        have he : endOfRow arr row = boxEndX arr (row.getLast h) := by
          simp only [endOfRow]
          rw [getLast_getD 0 row hrow.1 h]
        simp only [boxLe]
        rw [← he]
        exact le_of_not_lt hc
      · exact hrest r h

theorem chain'_first_boxLe (arr : List PBox)
    (hfg : ∀ j : ℕ, (arr.getD j ⟨0, 0⟩).x ≤ boxEndX arr j) :
    ∀ (t : List ℕ) (a : ℕ), (a :: t).Chain' (boxLe arr) →
      ∀ b ∈ t, boxLe arr a b := by
  intro t
  induction t with
  | nil =>
    intro a _ b hb
    simp at hb
  | cons c t' ih =>
    intro a h b hb
    obtain ⟨h1, h2⟩ := List.chain'_cons.mp h
    rw [List.mem_cons] at hb
    rcases hb with rfl | hb
    · exact h1
    · have h3 := ih c h2 b hb
      exact le_trans h1 (le_trans (hfg c) h3)

theorem chain'_pairwise_boxLe (arr : List PBox)
    (hfg : ∀ j : ℕ, (arr.getD j ⟨0, 0⟩).x ≤ boxEndX arr j) :
    ∀ l : List ℕ, l.Chain' (boxLe arr) → l.Pairwise (boxLe arr) := by
  intro l
  induction l with
  | nil =>
    intro _
    exact List.Pairwise.nil
  | cons a t ih =>
    intro h
    have h2 : t.Chain' (boxLe arr) := (List.chain'_cons'.mp h).2
    exact List.Pairwise.cons (chain'_first_boxLe arr hfg t a h) (ih h2)

theorem packRows_rows_good (arr : List PBox) :
    ∀ r ∈ packRows arr, r ≠ [] ∧ r.Chain' (boxLe arr) := by
  have hgen : ∀ (ks : List ℕ) (rows : List (List ℕ)),
      (∀ r ∈ rows, r ≠ [] ∧ r.Chain' (boxLe arr)) →
      ∀ r ∈ ks.foldl (fun rows k => placeIdx arr (k + 1) rows) rows,
        r ≠ [] ∧ r.Chain' (boxLe arr) := by
    intro ks
    induction ks with
    | nil =>
      intro rows h r hr
      exact h r hr
    | cons k ks ih =>
      intro rows h r hr
      exact ih (placeIdx arr (k + 1) rows) (placeIdx_preserves arr (k + 1) rows h) r hr
  intro r hr
  by_cases harr : arr = []
  · rw [packRows, if_pos harr] at hr
    simp at hr
  · rw [packRows, if_neg harr] at hr
    refine hgen (List.range (arr.length - 1)) [[0]] ?_ r hr
    intro r2 hr2
    simp only [List.mem_singleton] at hr2
    subst hr2
    exact ⟨by simp, List.chain'_singleton 0⟩

theorem boundingWidth_ge_textWidth (st : TimelineState) (sd ed : JSDate) (tw : ℚ) :
    tw ≤ (setupCoordinates st sd ed tw).boundingWidth :=
  le_max_right _ _

/-- C1: for every caller-supplied list of periods (each with its start x and
bounding width as setupCoordinates produced them, the bounding width being
max(bar width, text width), nonnegative whenever the measured text width
is), every row computed by the packing pass of setUpTimePeriods is
insertion-ordered without overlap: consecutive periods p, q in a row
satisfy q's start x ≥ p's bounding end x, and hence any two periods of the
same row have disjoint pixel bounding boxes. -/
theorem C1_pack_no_overlap (st : TimelineState)
    (periods : List (JSDate × JSDate × ℚ))
    (htw : ∀ q ∈ periods, 0 ≤ q.2.2) :
    ∀ r ∈ packRows (periods.map (fun q =>
        ⟨(setupCoordinates st q.1 q.2.1 q.2.2).x,
         (setupCoordinates st q.1 q.2.1 q.2.2).boundingWidth⟩)),
      r.Chain' (boxLe (periods.map (fun q =>
        ⟨(setupCoordinates st q.1 q.2.1 q.2.2).x,
         (setupCoordinates st q.1 q.2.1 q.2.2).boundingWidth⟩))) ∧
      r.Pairwise (boxLe (periods.map (fun q =>
        ⟨(setupCoordinates st q.1 q.2.1 q.2.2).x,
         (setupCoordinates st q.1 q.2.1 q.2.2).boundingWidth⟩))) := by
  set arr : List PBox := periods.map (fun q =>
    ⟨(setupCoordinates st q.1 q.2.1 q.2.2).x,
     (setupCoordinates st q.1 q.2.1 q.2.2).boundingWidth⟩) with harr
  have hbw : ∀ p ∈ arr, 0 ≤ p.bw := by
    intro p hp
    rw [harr] at hp
    obtain ⟨q, hq, rfl⟩ := List.mem_map.mp hp
    show (0 : ℚ) ≤ (setupCoordinates st q.1 q.2.1 q.2.2).boundingWidth
    have h1 := htw q hq
    calc (0 : ℚ) ≤ q.2.2 := h1
    _ ≤ (setupCoordinates st q.1 q.2.1 q.2.2).boundingWidth :=
        (boundingWidth_ge_textWidth st q.1 q.2.1 q.2.2)
  have hfg : ∀ j : ℕ, (arr.getD j ⟨0, 0⟩).x ≤ boxEndX arr j := by
    intro j
    simp only [boxEndX]
    by_cases hj : j < arr.length
    · have hmem : arr.getD j ⟨0, 0⟩ ∈ arr := by
        rw [List.getD_eq_getElem arr ⟨0, 0⟩ hj]
        exact List.getElem_mem hj
      have := hbw _ hmem
      linarith
    · rw [List.getD_eq_default arr ⟨0, 0⟩ (by omega)]
      norm_num
  intro r hr
  obtain ⟨hne, hchain⟩ := packRows_rows_good arr r hr
  exact ⟨hchain, chain'_pairwise_boxLe arr hfg r hchain⟩

/-- Witness for C1 at a one-period lane: its single row is trivially
chain-ordered and non-overlapping. -/
theorem C1_pack_no_overlap_witness :
    (∀ q ∈ ([(⟨2000, 0, 1, 0, 0, 0, 0⟩, ⟨2005, 0, 1, 0, 0, 0, 0⟩, (10 : ℚ))] :
        List (JSDate × JSDate × ℚ)), 0 ≤ q.2.2) ∧
    (List.Chain' (boxLe (([(⟨2000, 0, 1, 0, 0, 0, 0⟩, ⟨2005, 0, 1, 0, 0, 0, 0⟩,
        (10 : ℚ))] : List (JSDate × JSDate × ℚ)).map (fun q =>
        ⟨(setupCoordinates
            { title := "", scaleWidth := 100, scaleType := "year",
              focusDate := ⟨2000, 0, 1, 0, 0, 0, 0⟩, focusX := 0, yOffset := 0,
              canvasWidth := 1000, linePosArr := [0, 1000],
              lineDateArr := [⟨2000, 0, 1, 0, 0, 0, 0⟩, ⟨2010, 0, 1, 0, 0, 0, 0⟩] }
            q.1 q.2.1 q.2.2).x,
         (setupCoordinates
            { title := "", scaleWidth := 100, scaleType := "year",
              focusDate := ⟨2000, 0, 1, 0, 0, 0, 0⟩, focusX := 0, yOffset := 0,
              canvasWidth := 1000, linePosArr := [0, 1000],
              lineDateArr := [⟨2000, 0, 1, 0, 0, 0, 0⟩, ⟨2010, 0, 1, 0, 0, 0, 0⟩] }
            q.1 q.2.1 q.2.2).boundingWidth⟩))) [0] ∧
     List.Pairwise (boxLe (([(⟨2000, 0, 1, 0, 0, 0, 0⟩, ⟨2005, 0, 1, 0, 0, 0, 0⟩,
        (10 : ℚ))] : List (JSDate × JSDate × ℚ)).map (fun q =>
        ⟨(setupCoordinates
            { title := "", scaleWidth := 100, scaleType := "year",
              focusDate := ⟨2000, 0, 1, 0, 0, 0, 0⟩, focusX := 0, yOffset := 0,
              canvasWidth := 1000, linePosArr := [0, 1000],
              lineDateArr := [⟨2000, 0, 1, 0, 0, 0, 0⟩, ⟨2010, 0, 1, 0, 0, 0, 0⟩] }
            q.1 q.2.1 q.2.2).x,
         (setupCoordinates
            { title := "", scaleWidth := 100, scaleType := "year",
              focusDate := ⟨2000, 0, 1, 0, 0, 0, 0⟩, focusX := 0, yOffset := 0,
              canvasWidth := 1000, linePosArr := [0, 1000],
              lineDateArr := [⟨2000, 0, 1, 0, 0, 0, 0⟩, ⟨2010, 0, 1, 0, 0, 0, 0⟩] }
            q.1 q.2.1 q.2.2).boundingWidth⟩))) [0]) :=
  ⟨by intro q hq; simp only [List.mem_singleton] at hq; subst hq; norm_num,
   C1_pack_no_overlap
     { title := "", scaleWidth := 100, scaleType := "year",
       focusDate := ⟨2000, 0, 1, 0, 0, 0, 0⟩, focusX := 0, yOffset := 0,
       canvasWidth := 1000, linePosArr := [0, 1000],
       lineDateArr := [⟨2000, 0, 1, 0, 0, 0, 0⟩, ⟨2010, 0, 1, 0, 0, 0, 0⟩] }
     [(⟨2000, 0, 1, 0, 0, 0, 0⟩, ⟨2005, 0, 1, 0, 0, 0, 0⟩, (10 : ℚ))]
     (by intro q hq; simp only [List.mem_singleton] at hq; subst hq; norm_num)
     [0] (by simp [packRows])⟩

/-- Witness for C6 at a concrete two-line grid with the mouse at 40. -/
theorem C6_rescale_anchor_witness :
    (let st : TimelineState :=
      { title := "", scaleWidth := 100, scaleType := "year",
        focusDate := ⟨2000, 0, 1, 0, 0, 0, 0⟩, focusX := 10, yOffset := 0,
        canvasWidth := 1000, linePosArr := [10, 50],
        lineDateArr := [⟨2000, 0, 1, 0, 0, 0, 0⟩, ⟨2001, 0, 1, 0, 0, 0, 0⟩] }
     st.linePosArr ≠ [] ∧
     ∃ i, i < st.linePosArr.length ∧
       (rescale st 5 40).focusX = st.linePosArr.getD i 0 ∧
       (rescale st 5 40).focusDate =
         st.lineDateArr.getD i ⟨1970, 0, 1, 0, 0, 0, 0⟩ ∧
       ∀ j, j < st.linePosArr.length →
         |st.linePosArr.getD i 0 - 40| ≤ |st.linePosArr.getD j 0 - 40|) :=
  ⟨by simp, C6_rescale_anchor _ 5 40 (by simp)⟩
